import Mathlib

/-!
# WinRT video backend (`src/video/winrt/SDL_winrtvideo.cpp`)

A shallow embedding of the display enumeration and window lifecycle code of
the WinRT video driver, followed by the properties proved about it.

Conventions of the embedding:

* `Uint32` and `UINT` values are natural numbers; `~x` on `Uint32` is `not32 x`;
  a conversion to `int` is `toInt32`.
* Pointers to `SDL_Window` objects are natural numbers, `Option Nat` when the
  pointer may be `NULL`; the window objects live in `State.windows`.
* Calls into the platform (DXGI, CoreWindow, EGL, allocator) and into the rest of
  the library answer with values taken from an explicit record (`Native`,
  `OutputCalls`), so that every outcome of a native call is an input of the model.
* A function that can stop without returning (null dereference, division by
  zero) returns `Run α`.
-/

namespace WinRT

/-! ## Machine integers -/

/-- The value of `~x` for a `Uint32` operand `x`. -/
def not32 (x : Nat) : Nat := (2 ^ 32 - 1) ^^^ (x % 2 ^ 32)

/-- Conversion of an unsigned 32 bit value (`UINT`) to `int`. -/
def toInt32 (x : Nat) : Int :=
  if x % 2 ^ 32 < 2 ^ 31 then ((x % 2 ^ 32 : Nat) : Int) else ((x % 2 ^ 32 : Nat) : Int) - 2 ^ 32

/-- Conversion of a signed value to `UINT`. -/
def toUInt32 (x : Int) : Nat := (x % 2 ^ 32).toNat

/-- The `LONG` subtraction `a - b`, wrapping at 32 bits. -/
def LONG_sub (a b : Int) : Int := toInt32 (toUInt32 (a - b))

/-! ## Abnormal termination -/

/-- Ways in which the C++ code stops without returning; `outOfFuel` belongs to the
model only (a loop ran longer than the bound it was given). -/
inductive Stop where
  | nullDereference
  | divideByZero
  | outOfFuel
  deriving DecidableEq, Repr

/-- A computation that returns a value or stops. -/
abbrev Run (α : Type) := Except Stop α

/-! ## Constants of headers that are not part of this file -/

/-- Constants and build switches that `SDL_winrtvideo.cpp` takes from headers:
the `SDL_WINDOW_*` bits of `SDL_video.h`, the version numbers of `SDL_version.h`
and the preprocessor conditions that select code in this file. -/
structure Build where
  SDL_WINDOW_FULLSCREEN : Nat
  SDL_WINDOW_OPENGL : Nat
  SDL_WINDOW_SHOWN : Nat
  SDL_WINDOW_HIDDEN : Nat
  SDL_WINDOW_BORDERLESS : Nat
  SDL_WINDOW_MAXIMIZED : Nat
  SDL_WINDOW_INPUT_GRABBED : Nat
  SDL_WINDOW_MOUSE_FOCUS : Nat
  SDL_WINDOW_FULLSCREEN_DESKTOP : Nat
  SDL_MAJOR_VERSION : Nat
  SDL_MINOR_VERSION : Nat
  SDL_PATCHLEVEL : Nat
  /-- Whether `SDL_WINRT_USE_APPLICATIONVIEW` is set. -/
  SDL_WINRT_USE_APPLICATIONVIEW : Bool
  /-- Whether `WINAPI_FAMILY == WINAPI_FAMILY_PHONE_APP`. -/
  WINAPI_FAMILY_PHONE_APP : Bool
  NTDDI_VERSION : Nat
  /-- Whether `SDL_VIDEO_OPENGL_EGL` is set. -/
  SDL_VIDEO_OPENGL_EGL : Bool
  /-- The value `SDL_SYSWM_WINRT` of `SDL_syswm.h`. -/
  SDL_SYSWM_WINRT : Nat

/-- The constant `NTDDI_WIN8` of the Windows SDK. -/
def NTDDI_WIN8 : Nat := 0x06020000

/-- The constant `NTDDI_WINBLUE` of the Windows SDK. -/
def NTDDI_WINBLUE : Nat := 0x06030000

/-- The code `DXGI_ERROR_NOT_FOUND` (0x887A0002) as a signed `HRESULT`. -/
def DXGI_ERROR_NOT_FOUND : Int := 0x887A0002 - 2 ^ 32

/-- The code `DXGI_ERROR_NOT_CURRENTLY_AVAILABLE` (0x887A0022) as a signed `HRESULT`. -/
def DXGI_ERROR_NOT_CURRENTLY_AVAILABLE : Int := 0x887A0022 - 2 ^ 32

/-- The value `DXGI_FORMAT_B8G8R8A8_UNORM` of the `DXGI_FORMAT` enumeration. -/
def DXGI_FORMAT_B8G8R8A8_UNORM : Nat := 87

/-- A build for Windows 8.1 desktop with the values of the SDL 2.0 headers; used
where a property is evaluated on concrete data. -/
def Build.desktop : Build where
  SDL_WINDOW_FULLSCREEN := 0x00000001
  SDL_WINDOW_OPENGL := 0x00000002
  SDL_WINDOW_SHOWN := 0x00000004
  SDL_WINDOW_HIDDEN := 0x00000008
  SDL_WINDOW_BORDERLESS := 0x00000010
  SDL_WINDOW_MAXIMIZED := 0x00000080
  SDL_WINDOW_INPUT_GRABBED := 0x00000100
  SDL_WINDOW_MOUSE_FOCUS := 0x00000400
  SDL_WINDOW_FULLSCREEN_DESKTOP := 0x00001001
  SDL_MAJOR_VERSION := 2
  SDL_MINOR_VERSION := 0
  SDL_PATCHLEVEL := 4
  SDL_WINRT_USE_APPLICATIONVIEW := true
  WINAPI_FAMILY_PHONE_APP := false
  NTDDI_VERSION := 0x06030000
  SDL_VIDEO_OPENGL_EGL := true
  SDL_SYSWM_WINRT := 8

/-! ## Data model -/

/-- The library-wide last error, as set by `SDL_SetError`, `SDL_OutOfMemory` and
`WIN_SetErrorFromHRESULT`. -/
inductive SDL_error where
  | message (text : String)
  | hresult (context : String) (hr : Int)
  | outOfMemory
  deriving DecidableEq, Repr

/-- The structure `SDL_DisplayMode`. -/
structure SDL_DisplayMode where
  format : Nat
  w : Int
  h : Int
  refresh_rate : Int
  driverdata : Option Nat
  deriving DecidableEq, Repr

/-- The mode after `SDL_zero(mode)`. -/
def SDL_DisplayMode.zero : SDL_DisplayMode :=
  { format := 0, w := 0, h := 0, refresh_rate := 0, driverdata := none }

/-- The structure `SDL_VideoDisplay`, with the fields this file uses. -/
structure SDL_VideoDisplay where
  name : Option String
  display_modes : List SDL_DisplayMode
  desktop_mode : SDL_DisplayMode
  current_mode : SDL_DisplayMode
  deriving DecidableEq, Repr

/-- The display after `SDL_zero(display)`. -/
def SDL_VideoDisplay.zero : SDL_VideoDisplay :=
  { name := none, display_modes := [], desktop_mode := SDL_DisplayMode.zero,
    current_mode := SDL_DisplayMode.zero }

/-- The structure `SDL_WindowData` (of `SDL_winrtvideo_cpp.h`): the driver data of a window.
Handles are natural numbers, `none` is a null handle (`EGL_NO_SURFACE` for the
surface). -/
structure SDL_WindowData where
  sdlWindow : Nat
  coreWindow : Option Nat
  appView : Option Nat
  egl_surface : Option Nat
  deriving DecidableEq, Repr

/-- The structure `SDL_Window`, with the fields this file reads or writes. -/
structure SDL_Window where
  flags : Nat
  last_fullscreen_flags : Nat
  x : Int
  y : Int
  w : Int
  h : Int
  driverdata : Option SDL_WindowData
  deriving DecidableEq, Repr

/-- The enumeration `Windows::Graphics::Display::DisplayOrientations`. -/
inductive DisplayOrientations where
  | None
  | Landscape
  | Portrait
  | LandscapeFlipped
  | PortraitFlipped
  deriving DecidableEq, Repr

/-- The structure `SDL_SysWMinfo`, with the fields `WINRT_GetWindowWMInfo` reads or writes. -/
structure SDL_SysWMinfo where
  version_major : Nat
  version_minor : Nat
  version_patch : Nat
  subsystem : Nat
  winrt_window : Option Nat
  deriving DecidableEq, Repr

/-- What the platform and the rest of the library answer while a window function
runs. Lengths are the values after `WINRT_DIPS_TO_PHYSICAL_PIXELS`. -/
structure Native where
  /-- The global `WINRT_XAMLWasEnabled`. -/
  WINRT_XAMLWasEnabled : Bool
  /-- Whether `new SDL_WindowData` yields an object. -/
  new_SDL_WindowData : Bool
  /-- The handle `CoreWindow::GetForCurrentThread()`. -/
  GetForCurrentThread : Option Nat
  /-- The handle `ApplicationView::GetForCurrentView()`. -/
  GetForCurrentView : Option Nat
  /-- The property `appView->IsFullScreen`. -/
  IsFullScreen : Bool
  /-- The rectangle `coreWindow->Bounds`, in physical pixels. -/
  Bounds_Left : Int
  Bounds_Top : Int
  Bounds_Width : Int
  Bounds_Height : Int
  /-- The value of `WINRT_DISPLAY_PROPERTY(CurrentOrientation)`. -/
  CurrentOrientation : DisplayOrientations
  /-- The property `coreWindow->Visible`. -/
  Visible : Bool
  /-- The value of `coreWindow->Bounds.Contains(coreWindow->PointerPosition)`. -/
  PointerInBounds : Bool
  /-- The display `SDL_GetDisplayForWindow(window)` points to. -/
  SDL_GetDisplayForWindow : SDL_VideoDisplay
  /-- The value of `CustomProperties->HasKey("SDLHelperWindowActivationState")`. -/
  HasKey_ActivationState : Bool
  /-- Whether the stored activation state is `Deactivated`. -/
  ActivationState_Deactivated : Bool
  /-- The value returned by `SDL_EGL_ChooseConfig`. -/
  SDL_EGL_ChooseConfig : Int
  /-- The text `SDL_GetError()` returns after `SDL_EGL_ChooseConfig`. -/
  SDL_GetError : String
  /-- The pointer `video_data->winrtEglWindow`. -/
  winrtEglWindow : Option Nat
  /-- The result of `eglCreateWindowSurface` called through the old signature. -/
  eglCreateWindowSurface_Old : Option Nat
  /-- The result of `eglCreateWindowSurface`. -/
  eglCreateWindowSurface : Option Nat

/-- The state the functions of this file act on. -/
structure State where
  /-- The global `WINRT_GlobalSDLWindow`. -/
  WINRT_GlobalSDLWindow : Option Nat
  /-- The `SDL_Window` object behind each window pointer. -/
  windows : Nat → SDL_Window
  /-- The displays registered with `SDL_AddVideoDisplay`. -/
  displays : List SDL_VideoDisplay
  /-- The last error. -/
  error : Option SDL_error
  /-- The `SDL_WindowData` objects that were deleted, latest first. -/
  released : List SDL_WindowData
  /-- The window last given to `SDL_SetKeyboardFocus`. -/
  keyboard_focus : Option Nat
  /-- The window last given to `SDL_SetMouseFocus`. -/
  mouse_focus : Option Nat

/-- The effect of `SDL_SetError(text)`: records the error; the call itself evaluates to `-1`. -/
def SDL_SetError (s : State) (text : String) : State :=
  { s with error := some (SDL_error.message text) }

/-- The effect of `SDL_OutOfMemory()`. -/
def SDL_OutOfMemory (s : State) : State :=
  { s with error := some SDL_error.outOfMemory }

/-- The effect of `WIN_SetErrorFromHRESULT(context, hr)`. -/
def WIN_SetErrorFromHRESULT (s : State) (context : String) (hr : Int) : State :=
  { s with error := some (SDL_error.hresult context hr) }

/-- Stores `w` as the object behind the window pointer `p`. -/
def State.setWindow (s : State) (p : Nat) (w : SDL_Window) : State :=
  { s with windows := Function.update s.windows p w }

/-! ## Window flags -/

/-- The constant `WINRT_DetectableFlags`. -/
def WINRT_DetectableFlags (B : Build) : Nat :=
  B.SDL_WINDOW_MAXIMIZED ||| B.SDL_WINDOW_FULLSCREEN_DESKTOP ||| B.SDL_WINDOW_SHOWN |||
    B.SDL_WINDOW_HIDDEN ||| B.SDL_WINDOW_MOUSE_FOCUS

/-- The window size that `WINRT_DetectWindowFlags` compares with the desktop mode:
the native bounds, swapped according to the current orientation where the build
rotates the window size. -/
def orientedSize (B : Build) (nat : Native) : Int × Int :=
  let w := nat.Bounds_Width
  let h := nat.Bounds_Height
  if !B.WINAPI_FAMILY_PHONE_APP || decide (B.NTDDI_VERSION > NTDDI_WIN8) then
    if B.WINAPI_FAMILY_PHONE_APP then
      match nat.CurrentOrientation with
      | DisplayOrientations.Landscape => (h, w)
      | DisplayOrientations.LandscapeFlipped => (h, w)
      | _ => (w, h)
    else
      match nat.CurrentOrientation with
      | DisplayOrientations.Portrait => (h, w)
      | DisplayOrientations.PortraitFlipped => (h, w)
      | _ => (w, h)
  else (w, h)

/-- The function `WINRT_DetectWindowFlags(window)`. -/
def WINRT_DetectWindowFlags (B : Build) (nat : Native) (window : SDL_Window) : Run Nat :=
  match window.driverdata with
  | none => Except.error Stop.nullDereference
  | some data =>
    let is_fullscreen : Bool :=
      if B.SDL_WINRT_USE_APPLICATIONVIEW then
        (if data.appView.isSome then nat.IsFullScreen else false)
      else if B.WINAPI_FAMILY_PHONE_APP then true
      else false
    if data.coreWindow.isSome then
      let latestFlags : Nat := 0
      let latestFlags :=
        if is_fullscreen then
          let display := nat.SDL_GetDisplayForWindow
          let wh := orientedSize B nat
          if display.desktop_mode.w ≠ wh.1 ∨ display.desktop_mode.h ≠ wh.2 then
            latestFlags ||| B.SDL_WINDOW_MAXIMIZED
          else
            latestFlags ||| B.SDL_WINDOW_FULLSCREEN_DESKTOP
        else latestFlags
      let latestFlags :=
        if nat.Visible then latestFlags ||| B.SDL_WINDOW_SHOWN
        else latestFlags ||| B.SDL_WINDOW_HIDDEN
      let latestFlags :=
        if B.WINAPI_FAMILY_PHONE_APP && decide (B.NTDDI_VERSION < NTDDI_WINBLUE) then
          latestFlags ||| B.SDL_WINDOW_MOUSE_FOCUS
        else if nat.PointerInBounds then latestFlags ||| B.SDL_WINDOW_MOUSE_FOCUS
        else latestFlags
      Except.ok latestFlags
    else Except.ok 0

/-- The body of `WINRT_UpdateWindowFlags` for a window object: the object after
the call. -/
def updateWindowFlags (B : Build) (nat : Native) (window : SDL_Window) (mask : Nat) :
    Run SDL_Window :=
  let mask := mask &&& WINRT_DetectableFlags B
  match WINRT_DetectWindowFlags B nat window with
  | Except.error e => Except.error e
  | Except.ok apply =>
    let window :=
      if (apply &&& mask) &&& B.SDL_WINDOW_FULLSCREEN ≠ 0 then
        { window with last_fullscreen_flags := window.flags }
      else window
    Except.ok { window with flags := (window.flags &&& not32 mask) ||| (apply &&& mask) }

/-- The function `WINRT_UpdateWindowFlags(window, mask)`, `window` being a pointer that may be
`NULL`. -/
def WINRT_UpdateWindowFlags (B : Build) (nat : Native) (s : State) (window : Option Nat)
    (mask : Nat) : Run State :=
  match window with
  | none => Except.ok s
  | some p =>
    match updateWindowFlags B nat (s.windows p) mask with
    | Except.error e => Except.error e
    | Except.ok w => Except.ok (s.setWindow p w)

/-! ## Window lifecycle -/

/-- The EGL part of `WINRT_CreateWindow` when OpenGL ES 2 support is built in: the
value stored in `data->egl_surface`, or the text given to `SDL_SetError` on the
paths that return an error. The 512 byte limit of the intermediate buffer is not
modelled. -/
def createEglSurface (B : Build) (nat : Native) (flags : Nat) (data : SDL_WindowData) :
    Except String (Option Nat) :=
  if flags &&& B.SDL_WINDOW_OPENGL = 0 then Except.ok none
  else if nat.SDL_EGL_ChooseConfig ≠ 0 then
    Except.error ("SDL_EGL_ChooseConfig failed: " ++ nat.SDL_GetError)
  else
    match nat.winrtEglWindow with
    | some _ =>
      match nat.eglCreateWindowSurface_Old with
      | none => Except.error "eglCreateWindowSurface failed"
      | some surface => Except.ok (some surface)
    | none =>
      match data.coreWindow with
      | some _ =>
        match nat.eglCreateWindowSurface with
        | none => Except.error "eglCreateWindowSurface failed"
        | some surface => Except.ok (some surface)
      | none => Except.error "No supported means to create an EGL window surface are available"

/-- The function `WINRT_CreateWindow(_this, window)`: the returned `int` and the
state after the call. `SDL_SetMouseFocus` and `SDL_SetKeyboardFocus` are recorded
as the window they were given. -/
def WINRT_CreateWindow (B : Build) (nat : Native) (s : State) (window : Nat) :
    Run (Int × State) :=
  match s.WINRT_GlobalSDLWindow with
  | some _ => Except.ok (-1, SDL_SetError s "WinRT only supports one window")
  | none =>
    if !nat.new_SDL_WindowData then Except.ok (-1, SDL_OutOfMemory s)
    else
      let data : SDL_WindowData :=
        { sdlWindow := window, coreWindow := none, appView := none, egl_surface := none }
      let data :=
        if !nat.WINRT_XAMLWasEnabled then
          { data with
            coreWindow := nat.GetForCurrentThread
            appView := if B.SDL_WINRT_USE_APPLICATIONVIEW then nat.GetForCurrentView else none }
        else data
      let win := s.windows window
      match (if B.SDL_VIDEO_OPENGL_EGL then createEglSurface B nat win.flags data
             else Except.ok none) with
      | Except.error text =>
        Except.ok (-1, SDL_SetError (s.setWindow window { win with driverdata := some data }) text)
      | Except.ok surface =>
        let data := { data with egl_surface := surface }
        let flags : Nat :=
          if B.SDL_WINRT_USE_APPLICATIONVIEW then B.SDL_WINDOW_BORDERLESS
          else B.SDL_WINDOW_FULLSCREEN_DESKTOP ||| B.SDL_WINDOW_BORDERLESS |||
            B.SDL_WINDOW_MAXIMIZED ||| B.SDL_WINDOW_INPUT_GRABBED
        let flags :=
          if B.SDL_VIDEO_OPENGL_EGL && data.egl_surface.isSome then flags ||| B.SDL_WINDOW_OPENGL
          else flags
        let win := { win with driverdata := some data, flags := flags }
        if nat.WINRT_XAMLWasEnabled then
          let win := { win with x := 0, y := 0, flags := win.flags ||| B.SDL_WINDOW_SHOWN }
          let s := s.setWindow window win
          let s := { s with mouse_focus := none, keyboard_focus := none }
          Except.ok (0, { s with WINRT_GlobalSDLWindow := some window })
        else
          match data.coreWindow with
          | none => Except.error Stop.nullDereference
          | some _ =>
            let win :=
              { win with
                x := nat.Bounds_Left, y := nat.Bounds_Top,
                w := nat.Bounds_Width, h := nat.Bounds_Height }
            match WINRT_UpdateWindowFlags B nat (s.setWindow window win) (some window)
                0xffffffff with
            | Except.error e => Except.error e
            | Except.ok s =>
              let isWindowActive : Bool :=
                if nat.HasKey_ActivationState then !nat.ActivationState_Deactivated else true
              let s := if isWindowActive then { s with keyboard_focus := some window } else s
              Except.ok (0, { s with WINRT_GlobalSDLWindow := some window })

/-- The function `WINRT_DestroyWindow(_this, window)`. -/
def WINRT_DestroyWindow (s : State) (window : Nat) : State :=
  let data := (s.windows window).driverdata
  let s :=
    if s.WINRT_GlobalSDLWindow = some window then { s with WINRT_GlobalSDLWindow := none }
    else s
  match data with
  | some d =>
    { s.setWindow window { s.windows window with driverdata := none } with
      released := d :: s.released }
  | none => s

/-- The text `WINRT_GetWindowWMInfo` gives to `SDL_SetError`. -/
def versionErrorText (B : Build) : String :=
  "Application not compiled with SDL " ++ toString B.SDL_MAJOR_VERSION ++ "." ++
    toString B.SDL_MINOR_VERSION ++ "\n"

/-- The function `WINRT_GetWindowWMInfo(_this, window, info)`: the returned
`SDL_bool`, the caller's struct and the state after the call. -/
def WINRT_GetWindowWMInfo (B : Build) (s : State) (window : Nat) (info : SDL_SysWMinfo) :
    Run (Bool × SDL_SysWMinfo × State) :=
  let data := (s.windows window).driverdata
  if info.version_major ≤ B.SDL_MAJOR_VERSION then
    match data with
    | none => Except.error Stop.nullDereference
    | some d =>
      Except.ok (true, { info with subsystem := B.SDL_SYSWM_WINRT, winrt_window := d.coreWindow }, s)
  else
    Except.ok (false, info, SDL_SetError s (versionErrorText B))

/-- A call of the window lifecycle: creation of a window, with what the platform
answers during the call, or destruction of a window. -/
inductive Call where
  | create (nat : Native) (window : Nat)
  | destroy (window : Nat)

/-- Runs a sequence of lifecycle calls from state `s`. Next to the state it keeps
`live`, the windows whose creation returned `0` and that were not given to
`WINRT_DestroyWindow` since. -/
def runCalls (B : Build) (s : State) (live : List Nat) : List Call → Run (State × List Nat)
  | [] => Except.ok (s, live)
  | Call.create nat window :: rest =>
    match WINRT_CreateWindow B nat s window with
    | Except.error e => Except.error e
    | Except.ok (r, s') =>
      runCalls B s' (if r = 0 then window :: live else live) rest
  | Call.destroy window :: rest =>
    runCalls B (WINRT_DestroyWindow s window) (live.filter (fun p => p ≠ window)) rest

/-! ## Display enumeration -/

/-- The structure `DXGI_RATIONAL`. -/
structure DXGI_RATIONAL where
  Numerator : Nat
  Denominator : Nat
  deriving DecidableEq, Repr

/-- The structure `DXGI_MODE_DESC`; the `UINT` and enumeration fields are natural
numbers. -/
structure DXGI_MODE_DESC where
  Width : Nat
  Height : Nat
  RefreshRate : DXGI_RATIONAL
  Format : Nat
  ScanlineOrdering : Nat
  Scaling : Nat
  deriving DecidableEq, Repr

/-- The mode description after `SDL_zero(modeToMatch)`. -/
def DXGI_MODE_DESC.zero : DXGI_MODE_DESC :=
  { Width := 0, Height := 0, RefreshRate := { Numerator := 0, Denominator := 0 }, Format := 0,
    ScanlineOrdering := 0, Scaling := 0 }

/-- The structure `RECT`, with `LONG` fields. -/
structure RECT where
  left : Int
  top : Int
  right : Int
  bottom : Int
  deriving DecidableEq, Repr

/-- The structure `DXGI_OUTPUT_DESC`, with the fields this file reads. -/
structure DXGI_OUTPUT_DESC where
  DeviceName : String
  DesktopCoordinates : RECT
  deriving DecidableEq, Repr

/-- What one output (`IDXGIOutput`), the allocator and the display registry of the
library answer while `WINRT_AddDisplaysForOutput` processes that output. A native
call answers `Except.ok` with what it produced when it succeeds and
`Except.error hr` with its `HRESULT` when `FAILED(hr)`. -/
structure OutputCalls where
  /-- The answer of `IDXGIOutput::GetDesc`. -/
  GetDesc : Except Int DXGI_OUTPUT_DESC
  /-- The answer of `IDXGIOutput::FindClosestMatchingMode` for a mode to match. -/
  FindClosestMatchingMode : DXGI_MODE_DESC → Except Int DXGI_MODE_DESC
  /-- The answer of `WIN_StringToUTF8`, `none` for `NULL`. -/
  WIN_StringToUTF8 : String → Option String
  /-- The answer of `GetDisplayModeList` called without a buffer: the mode count. -/
  GetDisplayModeList_size : Except Int Nat
  /-- Whether `SDL_calloc` of that many mode descriptions yields a buffer. -/
  SDL_calloc : Nat → Bool
  /-- The answer of `GetDisplayModeList` called with a buffer for the given count:
  the modes written to the buffer; `numModes` is their number afterwards. -/
  GetDisplayModeList_contents : Nat → Except Int (List DXGI_MODE_DESC)
  /-- Whether `SDL_AddDisplayMode` takes a mode, given the modes the display has. -/
  accepts : List SDL_DisplayMode → SDL_DisplayMode → Bool
  /-- Whether `SDL_AddVideoDisplay` succeeds. -/
  addsDisplay : Bool

/-- What an adapter (`IDXGIAdapter1`) answers: one entry per output index at which
`EnumOutputs` does not report `DXGI_ERROR_NOT_FOUND`. -/
structure Adapter where
  outputs : List (Except Int OutputCalls)

/-- What the factory (`IDXGIFactory2`) answers: one entry per adapter index at which
`EnumAdapters1` does not report `DXGI_ERROR_NOT_FOUND`. -/
structure Factory where
  adapters : List (Except Int Adapter)

/-- The call `dxgiAdapter1->EnumOutputs(outputIndex, &dxgiOutput)`: past the last
entry the platform reports `DXGI_ERROR_NOT_FOUND`. -/
def EnumOutputs (a : Adapter) (outputIndex : Nat) : Except Int OutputCalls :=
  a.outputs.getD outputIndex (Except.error DXGI_ERROR_NOT_FOUND)

/-- The call `dxgiFactory2->EnumAdapters1(adapterIndex, &dxgiAdapter1)`: past the last
entry the platform reports `DXGI_ERROR_NOT_FOUND`. -/
def EnumAdapters1 (f : Factory) (adapterIndex : Nat) : Except Int Adapter :=
  f.adapters.getD adapterIndex (Except.error DXGI_ERROR_NOT_FOUND)

/-- Modelled from the spec: `SDL_AddDisplayMode` belongs to `SDL_video.c`, which is
not among the sources. A display holds an ordered list of supported modes and the
collected modes are registered with it; the caller tests the returned truth value,
so the call may refuse a mode, in which case the display is left as it was. Which
modes are refused is the parameter `accepts`. -/
def SDL_AddDisplayMode (accepts : List SDL_DisplayMode → SDL_DisplayMode → Bool)
    (display : SDL_VideoDisplay) (mode : SDL_DisplayMode) : Bool × SDL_VideoDisplay :=
  if accepts display.display_modes mode then
    (true, { display with display_modes := display.display_modes ++ [mode] })
  else (false, display)

/-- Modelled from the spec: `SDL_AddVideoDisplay` belongs to `SDL_video.c`, which is
not among the sources. It registers a copy of the display as a new display, after
the ones registered before, and returns its index; the caller tests for a negative
result, returned with an out-of-memory error when the registry cannot grow. A
display without a name gets its index as name. -/
def SDL_AddVideoDisplay (addsDisplay : Bool) (s : State) (display : SDL_VideoDisplay) :
    Int × State :=
  if addsDisplay then
    let display :=
      match display.name with
      | some _ => display
      | none => { display with name := some (toString s.displays.length) }
    ((s.displays.length : Int), { s with displays := s.displays ++ [display] })
  else (-1, SDL_OutOfMemory s)

/-- The function `WINRT_DXGIModeToSDLDisplayMode(dxgiMode, sdlMode)`: the mode written
to `sdlMode`. The translator `D3D11_DXGIFormatToSDLPixelFormat`, declared `extern`
in this file, is the parameter `fmt`. The `UINT` division stops on a zero
denominator. -/
def WINRT_DXGIModeToSDLDisplayMode (fmt : Nat → Nat) (dxgiMode : DXGI_MODE_DESC) :
    Run SDL_DisplayMode :=
  if dxgiMode.RefreshRate.Denominator = 0 then Except.error Stop.divideByZero
  else
    Except.ok
      { SDL_DisplayMode.zero with
        w := toInt32 dxgiMode.Width
        h := toInt32 dxgiMode.Height
        refresh_rate := toInt32 (dxgiMode.RefreshRate.Numerator / dxgiMode.RefreshRate.Denominator)
        format := fmt dxgiMode.Format }

/-- The loop of `WINRT_AddDisplaysForOutput` over the modes the platform wrote to the
buffer: each is converted and given to `SDL_AddDisplayMode`, whose result is not
looked at. -/
def addModes (fmt : Nat → Nat) (accepts : List SDL_DisplayMode → SDL_DisplayMode → Bool) :
    List DXGI_MODE_DESC → SDL_VideoDisplay → Run SDL_VideoDisplay
  | [], display => Except.ok display
  | dxgiMode :: rest, display =>
    match WINRT_DXGIModeToSDLDisplayMode fmt dxgiMode with
    | Except.error e => Except.error e
    | Except.ok sdlMode => addModes fmt accepts rest (SDL_AddDisplayMode accepts display sdlMode).2

/-- The end of `WINRT_AddDisplaysForOutput`: the display is registered and
`functionResult` becomes `0`, unless `SDL_AddVideoDisplay` fails. -/
def registerDisplay (out : OutputCalls) (s : State) (display : SDL_VideoDisplay) :
    Int × State :=
  let r := SDL_AddVideoDisplay out.addsDisplay s display
  if r.1 < 0 then (-1, r.2) else (0, r.2)

/-- The mode `WINRT_AddDisplaysForOutput` builds when the closest-match query
reports `DXGI_ERROR_NOT_CURRENTLY_AVAILABLE`. -/
def approximateMode (desc : DXGI_OUTPUT_DESC) : SDL_DisplayMode :=
  { SDL_DisplayMode.zero with
    w := LONG_sub desc.DesktopCoordinates.right desc.DesktopCoordinates.left
    h := LONG_sub desc.DesktopCoordinates.bottom desc.DesktopCoordinates.top
    format := DXGI_FORMAT_B8G8R8A8_UNORM
    refresh_rate := 0 }

/-- The mode `WINRT_AddDisplaysForOutput` asks the closest match for. -/
def modeToMatch (desc : DXGI_OUTPUT_DESC) : DXGI_MODE_DESC :=
  { DXGI_MODE_DESC.zero with
    Format := DXGI_FORMAT_B8G8R8A8_UNORM
    Width := toUInt32 (LONG_sub desc.DesktopCoordinates.right desc.DesktopCoordinates.left)
    Height := toUInt32 (LONG_sub desc.DesktopCoordinates.bottom desc.DesktopCoordinates.top) }

/-- The function `WINRT_AddDisplaysForOutput(_this, dxgiAdapter1, outputIndex)`: the
returned `int` (`-1` for failure, `0` for success) and the state after the call. -/
def WINRT_AddDisplaysForOutput (fmt : Nat → Nat) (dxgiAdapter1 : Adapter) (outputIndex : Nat)
    (s : State) : Run (Int × State) :=
  let display := SDL_VideoDisplay.zero
  match EnumOutputs dxgiAdapter1 outputIndex with
  | Except.error hr =>
    Except.ok (-1,
      if hr ≠ DXGI_ERROR_NOT_FOUND then
        WIN_SetErrorFromHRESULT s "WINRT_AddDisplaysForOutput, IDXGIAdapter1::EnumOutputs failed" hr
      else s)
  | Except.ok out =>
    match out.GetDesc with
    | Except.error hr =>
      Except.ok (-1,
        WIN_SetErrorFromHRESULT s "WINRT_AddDisplaysForOutput, IDXGIOutput::GetDesc failed" hr)
    | Except.ok dxgiOutputDesc =>
      match out.FindClosestMatchingMode (modeToMatch dxgiOutputDesc) with
      | Except.error hr =>
        if hr = DXGI_ERROR_NOT_CURRENTLY_AVAILABLE then
          let mode := approximateMode dxgiOutputDesc
          let display :=
            { display with
              name := some "Windows Simulator / Terminal Services Display"
              desktop_mode := mode
              current_mode := mode }
          let added := SDL_AddDisplayMode out.accepts display mode
          if !added.1 then Except.ok (-1, s)
          else Except.ok (registerDisplay out s added.2)
        else
          Except.ok (-1,
            WIN_SetErrorFromHRESULT s
              "WINRT_AddDisplaysForOutput, IDXGIOutput::FindClosestMatchingMode failed" hr)
      | Except.ok closestMatch =>
        match WINRT_DXGIModeToSDLDisplayMode fmt closestMatch with
        | Except.error e => Except.error e
        | Except.ok desktop_mode =>
          let display :=
            { display with
              name := out.WIN_StringToUTF8 dxgiOutputDesc.DeviceName
              desktop_mode := desktop_mode
              current_mode := desktop_mode }
          match out.GetDisplayModeList_size with
          | Except.error hr =>
            Except.ok (-1,
              WIN_SetErrorFromHRESULT s
                "WINRT_AddDisplaysForOutput, IDXGIOutput::GetDisplayModeList [get mode list size] failed"
                hr)
          | Except.ok numModes =>
            if !out.SDL_calloc numModes then Except.ok (-1, SDL_OutOfMemory s)
            else
              match out.GetDisplayModeList_contents numModes with
              | Except.error hr =>
                Except.ok (-1,
                  WIN_SetErrorFromHRESULT s
                    "WINRT_AddDisplaysForOutput, IDXGIOutput::GetDisplayModeList [get mode contents] failed"
                    hr)
              | Except.ok dxgiModes =>
                match addModes fmt out.accepts dxgiModes display with
                | Except.error e => Except.error e
                | Except.ok display => Except.ok (registerDisplay out s display)

/-- The loop `for (outputIndex = ...; ; ++outputIndex)` of
`WINRT_AddDisplaysForAdapter`, entered at `outputIndex` and allowed `fuel`
iterations: it ends when `WINRT_AddDisplaysForOutput` returns a negative value. -/
def outputLoop (fmt : Nat → Nat) (dxgiAdapter1 : Adapter) :
    Nat → Nat → State → Run State
  | 0, _, _ => Except.error Stop.outOfFuel
  | fuel + 1, outputIndex, s =>
    match WINRT_AddDisplaysForOutput fmt dxgiAdapter1 outputIndex s with
    | Except.error e => Except.error e
    | Except.ok (r, s') =>
      if r < 0 then Except.ok s' else outputLoop fmt dxgiAdapter1 fuel (outputIndex + 1) s'

/-- The function `WINRT_AddDisplaysForAdapter(_this, dxgiFactory2, adapterIndex)`. The
output loop gets one iteration more than the adapter has entries, which is as
many as it can make. -/
def WINRT_AddDisplaysForAdapter (fmt : Nat → Nat) (dxgiFactory2 : Factory) (adapterIndex : Nat)
    (s : State) : Run (Int × State) :=
  match EnumAdapters1 dxgiFactory2 adapterIndex with
  | Except.error hr =>
    Except.ok (-1,
      if hr ≠ DXGI_ERROR_NOT_FOUND then
        WIN_SetErrorFromHRESULT s
          "WINRT_AddDisplaysForAdapter, IDXGIFactory1::EnumAdapters1() failed" hr
      else s)
  | Except.ok dxgiAdapter1 =>
    match outputLoop fmt dxgiAdapter1 (dxgiAdapter1.outputs.length + 1) 0 s with
    | Except.error e => Except.error e
    | Except.ok s' => Except.ok (0, s')

/-- The loop `for (adapterIndex = 0; ; ++adapterIndex)` of `WINRT_InitModes`, entered
at `adapterIndex` and allowed `fuel` iterations: it ends when
`WINRT_AddDisplaysForAdapter` returns a negative value. -/
def adapterLoop (fmt : Nat → Nat) (dxgiFactory2 : Factory) :
    Nat → Nat → State → Run State
  | 0, _, _ => Except.error Stop.outOfFuel
  | fuel + 1, adapterIndex, s =>
    match WINRT_AddDisplaysForAdapter fmt dxgiFactory2 adapterIndex s with
    | Except.error e => Except.error e
    | Except.ok (r, s') =>
      if r < 0 then Except.ok s' else adapterLoop fmt dxgiFactory2 fuel (adapterIndex + 1) s'

/-- Whether no native mode that `WINRT_AddDisplaysForOutput` converts for this output
has a zero refresh denominator: neither the closest match nor a mode of the filled
mode list. -/
def OutputCalls.denominatorsNonZero (out : OutputCalls) : Bool :=
  match out.GetDesc with
  | Except.error _ => true
  | Except.ok desc =>
    match out.FindClosestMatchingMode (modeToMatch desc) with
    | Except.error _ => true
    | Except.ok closest =>
      decide (closest.RefreshRate.Denominator ≠ 0) &&
        match out.GetDisplayModeList_size with
        | Except.error _ => true
        | Except.ok numModes =>
          match out.GetDisplayModeList_contents numModes with
          | Except.error _ => true
          | Except.ok dxgiModes =>
            dxgiModes.all (fun m => decide (m.RefreshRate.Denominator ≠ 0))

/-- Whether no output of the adapter has a native mode with a zero refresh
denominator among those that are converted. -/
def Adapter.denominatorsNonZero (a : Adapter) : Bool :=
  a.outputs.all (fun entry =>
    match entry with
    | Except.ok out => out.denominatorsNonZero
    | Except.error _ => true)

/-- Whether no adapter of the factory has an output with a native mode with a zero
refresh denominator among those that are converted. -/
def Factory.denominatorsNonZero (f : Factory) : Bool :=
  f.adapters.all (fun entry =>
    match entry with
    | Except.ok a => a.denominatorsNonZero
    | Except.error _ => true)

/-- Whether version `a` exceeds version `b`, both compared as (major, minor, patch)
triples. -/
def versionExceeds (a b : Nat × Nat × Nat) : Bool :=
  decide (b.1 < a.1) || (decide (a.1 = b.1) && (decide (b.2.1 < a.2.1) ||
    (decide (a.2.1 = b.2.1) && decide (b.2.2 < a.2.2))))

/-! ## Sample data -/

/-- A window object with no driver data. -/
def SDL_Window.blank : SDL_Window :=
  { flags := 0, last_fullscreen_flags := 0, x := 0, y := 0, w := 0, h := 0, driverdata := none }

/-- A state with no current window, no display and no error. -/
def State.start : State :=
  { WINRT_GlobalSDLWindow := none, windows := fun _ => SDL_Window.blank, displays := [],
    error := none, released := [], keyboard_focus := none, mouse_focus := none }

/-- A platform with a visible, full screen native window of 1920 by 1080 pixels on
a display whose desktop mode has that size. -/
def Native.sample : Native :=
  { WINRT_XAMLWasEnabled := false, new_SDL_WindowData := true,
    GetForCurrentThread := some 1, GetForCurrentView := some 2, IsFullScreen := true,
    Bounds_Left := 0, Bounds_Top := 0, Bounds_Width := 1920, Bounds_Height := 1080,
    CurrentOrientation := DisplayOrientations.Landscape, Visible := true,
    PointerInBounds := false,
    SDL_GetDisplayForWindow :=
      { SDL_VideoDisplay.zero with
        desktop_mode := { SDL_DisplayMode.zero with w := 1920, h := 1080 } },
    HasKey_ActivationState := false, ActivationState_Deactivated := false,
    SDL_EGL_ChooseConfig := 0, SDL_GetError := "", winrtEglWindow := none,
    eglCreateWindowSurface_Old := none, eglCreateWindowSurface := some 3 }

/-- A platform with a visible, full screen native window of 1080 by 1920 pixels in
portrait orientation, the pointer inside it, on a display whose desktop mode is
1920 by 1080. -/
def Native.portrait : Native :=
  { Native.sample with
    Bounds_Width := 1080, Bounds_Height := 1920,
    CurrentOrientation := DisplayOrientations.Portrait, PointerInBounds := true }

/-- A state whose current window, at pointer 7, has driver data with a native
window handle. -/
def State.oneWindow : State :=
  { State.start with
    WINRT_GlobalSDLWindow := some 7
    windows := fun _ =>
      { SDL_Window.blank with
        flags := 0x2015
        driverdata :=
          some { sdlWindow := 7, coreWindow := some 1, appView := some 2, egl_surface := none } } }

/-- A format translator for concrete data: `DXGI_FORMAT_B8G8R8A8_UNORM` (87) and
`DXGI_FORMAT_B8G8R8X8_UNORM` (88) go to the packed pixel formats 0x16362004 and
0x16161804, every other value to 0 (unknown). -/
def sampleFormat (dxgiFormat : Nat) : Nat :=
  if dxgiFormat = 87 then 0x16362004 else if dxgiFormat = 88 then 0x16161804 else 0

/-- A registry that takes every mode. -/
def acceptsAll : List SDL_DisplayMode → SDL_DisplayMode → Bool := fun _ _ => true

/-- A registry that refuses a mode the display already has. -/
def refusesDuplicates : List SDL_DisplayMode → SDL_DisplayMode → Bool :=
  fun modes mode => !modes.contains mode

/-- The failure code `E_FAIL` (0x80004005) as a signed `HRESULT`. -/
def E_FAIL : Int := 0x80004005 - 2 ^ 32

/-- A native mode of 1920 by 1080 pixels at 60 Hz. -/
def DXGI_MODE_DESC.hd60 : DXGI_MODE_DESC :=
  { Width := 1920, Height := 1080, RefreshRate := { Numerator := 60000, Denominator := 1000 },
    Format := 87, ScanlineOrdering := 0, Scaling := 0 }

/-- A native mode of 1280 by 720 pixels at 60 Hz. -/
def DXGI_MODE_DESC.small60 : DXGI_MODE_DESC :=
  { Width := 1280, Height := 720, RefreshRate := { Numerator := 60, Denominator := 1 },
    Format := 87, ScanlineOrdering := 0, Scaling := 0 }

/-- An output description with a desktop rectangle of 1920 by 1080 pixels. -/
def DXGI_OUTPUT_DESC.sample : DXGI_OUTPUT_DESC :=
  { DeviceName := "DISPLAY1", DesktopCoordinates := { left := 0, top := 0, right := 1920, bottom := 1080 } }

/-- An output in a remote session: the closest-match query reports
`DXGI_ERROR_NOT_CURRENTLY_AVAILABLE`, as does the mode-list query. -/
def OutputCalls.remote : OutputCalls :=
  { GetDesc := Except.ok DXGI_OUTPUT_DESC.sample
    FindClosestMatchingMode := fun _ => Except.error DXGI_ERROR_NOT_CURRENTLY_AVAILABLE
    WIN_StringToUTF8 := fun name => some name
    GetDisplayModeList_size := Except.error DXGI_ERROR_NOT_CURRENTLY_AVAILABLE
    SDL_calloc := fun _ => true
    GetDisplayModeList_contents := fun _ => Except.error DXGI_ERROR_NOT_CURRENTLY_AVAILABLE
    accepts := refusesDuplicates
    addsDisplay := true }

/-- An output whose mode list has three entries; the first two differ in their
scaling only, which the conversion to a generic mode does not look at. -/
def OutputCalls.monitor : OutputCalls :=
  { GetDesc := Except.ok DXGI_OUTPUT_DESC.sample
    FindClosestMatchingMode := fun _ => Except.ok DXGI_MODE_DESC.hd60
    WIN_StringToUTF8 := fun name => some name
    GetDisplayModeList_size := Except.ok 3
    SDL_calloc := fun _ => true
    GetDisplayModeList_contents := fun _ =>
      Except.ok [DXGI_MODE_DESC.hd60, { DXGI_MODE_DESC.hd60 with Scaling := 2 },
        DXGI_MODE_DESC.small60]
    accepts := refusesDuplicates
    addsDisplay := true }

/-- An output whose mode list has three entries, with a registry that takes every
mode. -/
def OutputCalls.plain : OutputCalls :=
  { OutputCalls.monitor with accepts := acceptsAll }

/-- An output whose description query fails with `E_FAIL`. -/
def OutputCalls.broken : OutputCalls :=
  { OutputCalls.monitor with GetDesc := Except.error E_FAIL }

/-- An adapter whose output 0 fails its description query and whose output 1 is a
remote-session output. -/
def Adapter.brokenFirst : Adapter :=
  { outputs := [Except.ok OutputCalls.broken, Except.ok OutputCalls.remote] }

/-- A factory with the adapter `Adapter.brokenFirst` followed by an adapter with one
monitor. -/
def Factory.sample : Factory :=
  { adapters := [Except.ok Adapter.brokenFirst,
      Except.ok { outputs := [Except.ok OutputCalls.monitor] }] }

/-- The window flag bits that flag detection uses have the values `SDL_video.h` gives
them. -/
def Build.sdlWindowFlags (B : Build) : Prop :=
  B.SDL_WINDOW_FULLSCREEN = 0x00000001 ∧ B.SDL_WINDOW_SHOWN = 0x00000004 ∧
  B.SDL_WINDOW_HIDDEN = 0x00000008 ∧ B.SDL_WINDOW_MAXIMIZED = 0x00000080 ∧
  B.SDL_WINDOW_MOUSE_FOCUS = 0x00000400 ∧ B.SDL_WINDOW_FULLSCREEN_DESKTOP = 0x00001001

/-! ## Properties of the window functions -/

/-- Bits of a flag word outside a mask `D` survive the merge of detected bits
restricted to a part of `D`. -/
theorem merge_outside (f a mask D : Nat) :
    ((f &&& not32 (mask &&& D)) ||| (a &&& (mask &&& D))) &&& not32 D = f &&& not32 D := by
  apply Nat.eq_of_testBit_eq
  intro i
  simp only [not32, Nat.testBit_and, Nat.testBit_or, Nat.testBit_xor,
    Nat.testBit_two_pow_sub_one, Nat.testBit_mod_two_pow]
  cases f.testBit i <;> cases a.testBit i <;> cases mask.testBit i <;> cases D.testBit i <;>
    cases decide (i < 32) <;> rfl

/-- A window with driver data never makes `WINRT_DetectWindowFlags` stop. -/
theorem WINRT_DetectWindowFlags_defined (B : Build) (nat : Native) (window : SDL_Window)
    (data : SDL_WindowData) (h : window.driverdata = some data) :
    ∃ d, WINRT_DetectWindowFlags B nat window = Except.ok d := by
  unfold WINRT_DetectWindowFlags
  rw [h]
  dsimp only
  split
  · exact ⟨_, rfl⟩
  · exact ⟨_, rfl⟩

/-- The only way `WINRT_DetectWindowFlags` stops is a window without driver data. -/
theorem WINRT_DetectWindowFlags_error (B : Build) (nat : Native) (window : SDL_Window)
    (e : Stop) (h : WINRT_DetectWindowFlags B nat window = Except.error e) :
    e = Stop.nullDereference ∧ window.driverdata = none := by
  cases hd : window.driverdata with
  | none =>
    unfold WINRT_DetectWindowFlags at h
    rw [hd] at h
    simp only [Except.error.injEq] at h
    exact ⟨h.symm, rfl⟩
  | some data =>
    obtain ⟨d, hd'⟩ := WINRT_DetectWindowFlags_defined B nat window data hd
    rw [hd'] at h
    cases h

/-- The window object after `WINRT_UpdateWindowFlags`, in terms of the detected
flags. -/
theorem updateWindowFlags_eq (B : Build) (nat : Native) (window : SDL_Window) (mask : Nat) :
    updateWindowFlags B nat window mask =
      (WINRT_DetectWindowFlags B nat window).map (fun d =>
        { window with
          flags := (window.flags &&& not32 (mask &&& WINRT_DetectableFlags B)) |||
            (d &&& (mask &&& WINRT_DetectableFlags B))
          last_fullscreen_flags :=
            if (d &&& (mask &&& WINRT_DetectableFlags B)) &&& B.SDL_WINDOW_FULLSCREEN ≠ 0 then
              window.flags
            else window.last_fullscreen_flags }) := by
  unfold updateWindowFlags
  cases WINRT_DetectWindowFlags B nat window with
  | error e => rfl
  | ok d =>
    simp only [Except.map]
    split <;> rfl

/-- C1: when a current window exists, `WINRT_CreateWindow` returns `-1` for every
window passed in, sets the error "WinRT only supports one window", and changes
neither the current-window pointer nor any window object (the existing window and
the one passed in included) nor anything else of the state. -/
theorem WINRT_CreateWindow_second_window (B : Build) (nat : Native) (s : State) (window : Nat)
    (h : s.WINRT_GlobalSDLWindow ≠ none) :
    ∃ s', WINRT_CreateWindow B nat s window = Except.ok (-1, s') ∧
      s'.error = some (SDL_error.message "WinRT only supports one window") ∧
      s'.WINRT_GlobalSDLWindow = s.WINRT_GlobalSDLWindow ∧
      (∀ p, s'.windows p = s.windows p) ∧
      s'.displays = s.displays ∧ s'.released = s.released ∧
      s'.keyboard_focus = s.keyboard_focus ∧ s'.mouse_focus = s.mouse_focus := by
  cases hg : s.WINRT_GlobalSDLWindow with
  | none => exact absurd hg h
  | some g =>
    refine ⟨SDL_SetError s "WinRT only supports one window", ?_, rfl, hg, fun _ => rfl, rfl,
      rfl, rfl, rfl⟩
    unfold WINRT_CreateWindow
    rw [hg]

/-- C1 at a concrete state: window 7 is current and window 8 is passed in. -/
theorem WINRT_CreateWindow_second_window_witness :
    ∃ s', WINRT_CreateWindow Build.desktop Native.sample State.oneWindow 8 = Except.ok (-1, s') ∧
      s'.error = some (SDL_error.message "WinRT only supports one window") ∧
      s'.WINRT_GlobalSDLWindow = State.oneWindow.WINRT_GlobalSDLWindow ∧
      (∀ p, s'.windows p = State.oneWindow.windows p) ∧
      s'.displays = State.oneWindow.displays ∧ s'.released = State.oneWindow.released ∧
      s'.keyboard_focus = State.oneWindow.keyboard_focus ∧
      s'.mouse_focus = State.oneWindow.mouse_focus :=
  WINRT_CreateWindow_second_window Build.desktop Native.sample State.oneWindow 8 (by decide)

/-- C2: after `WINRT_DestroyWindow(w)` the current-window pointer is null if it was
`w` and is unchanged otherwise; in both cases the driver data of `w` is null
afterwards, the data object it had (if any) was deleted, and no other window
object changed. -/
theorem WINRT_DestroyWindow_pointer (s : State) (w : Nat) :
    (s.WINRT_GlobalSDLWindow = some w → (WINRT_DestroyWindow s w).WINRT_GlobalSDLWindow = none) ∧
    (s.WINRT_GlobalSDLWindow ≠ some w →
      (WINRT_DestroyWindow s w).WINRT_GlobalSDLWindow = s.WINRT_GlobalSDLWindow) ∧
    ((WINRT_DestroyWindow s w).windows w).driverdata = none ∧
    (∀ d, (s.windows w).driverdata = some d →
      (WINRT_DestroyWindow s w).released = d :: s.released) ∧
    ((s.windows w).driverdata = none → (WINRT_DestroyWindow s w).released = s.released) ∧
    (∀ p, p ≠ w → (WINRT_DestroyWindow s w).windows p = s.windows p) := by
  unfold WINRT_DestroyWindow
  cases hd : (s.windows w).driverdata with
  | none =>
    by_cases hg : s.WINRT_GlobalSDLWindow = some w
    · simp [hg, hd]
    · simp [hg, hd]
  | some d =>
    by_cases hg : s.WINRT_GlobalSDLWindow = some w
    · simp only [hg, State.setWindow, Function.update_same]
      simp
      intro p hp
      exact Function.update_noteq hp _ _
    · simp only [hg, State.setWindow, Function.update_same]
      simp
      intro p hp
      exact Function.update_noteq hp _ _

/-- C2 at a concrete state: destroying the current window 7 with driver data, and
what it says for the non-current case. -/
theorem WINRT_DestroyWindow_pointer_witness :
    (WINRT_DestroyWindow State.oneWindow 7).WINRT_GlobalSDLWindow = none ∧
    (WINRT_DestroyWindow State.oneWindow 8).WINRT_GlobalSDLWindow = some 7 ∧
    ((WINRT_DestroyWindow State.oneWindow 7).windows 7).driverdata = none ∧
    (WINRT_DestroyWindow State.oneWindow 7).released =
      [{ sdlWindow := 7, coreWindow := some 1, appView := some 2, egl_surface := none }] :=
  ⟨(WINRT_DestroyWindow_pointer State.oneWindow 7).1 rfl,
   (WINRT_DestroyWindow_pointer State.oneWindow 8).2.1 (by decide),
   (WINRT_DestroyWindow_pointer State.oneWindow 7).2.2.1,
   (WINRT_DestroyWindow_pointer State.oneWindow 7).2.2.2.1 _ rfl⟩

/-- C3: whatever the window, the input mask and the native state, a call of
`WINRT_UpdateWindowFlags` that returns leaves every bit outside
`WINRT_DetectableFlags` of the flags of every window as it was; the call returns
unless the window it is given has no driver data (null dereference in
`WINRT_DetectWindowFlags`, before anything is written). -/
theorem WINRT_UpdateWindowFlags_frame (B : Build) (nat : Native) (s : State)
    (window : Option Nat) (mask : Nat) :
    (∀ s', WINRT_UpdateWindowFlags B nat s window mask = Except.ok s' →
      ∀ p, (s'.windows p).flags &&& not32 (WINRT_DetectableFlags B) =
        (s.windows p).flags &&& not32 (WINRT_DetectableFlags B)) ∧
    (∀ e, WINRT_UpdateWindowFlags B nat s window mask = Except.error e →
      e = Stop.nullDereference ∧ ∃ p, window = some p ∧ (s.windows p).driverdata = none) := by
  cases window with
  | none =>
    refine ⟨?_, ?_⟩
    · intro s' h p
      simp only [WINRT_UpdateWindowFlags, Except.ok.injEq] at h
      rw [← h]
    · intro e h
      simp [WINRT_UpdateWindowFlags] at h
  | some q =>
    unfold WINRT_UpdateWindowFlags
    dsimp only
    rw [updateWindowFlags_eq]
    cases hd : WINRT_DetectWindowFlags B nat (s.windows q) with
    | error e0 =>
      refine ⟨?_, ?_⟩
      · intro s' h
        simp [Except.map] at h
      · intro e h
        simp only [Except.map, Except.error.injEq] at h
        obtain ⟨h1, h2⟩ := WINRT_DetectWindowFlags_error B nat _ e0 hd
        exact ⟨h ▸ h1, q, rfl, h2⟩
    | ok d =>
      refine ⟨?_, ?_⟩
      · intro s' h p
        simp only [Except.map, Except.ok.injEq] at h
        rw [← h]
        by_cases hp : p = q
        · subst hp
          simp only [State.setWindow, Function.update_same]
          exact merge_outside _ _ _ _
        · simp only [State.setWindow, Function.update_noteq hp]
      · intro e h
        simp [Except.map] at h

/-- C3 at a concrete state: the current window 7 has flag 0x2000 (outside the
detectable mask) set, the call with the full mask returns, and the bit is kept. -/
theorem WINRT_UpdateWindowFlags_frame_witness :
    ∃ s', WINRT_UpdateWindowFlags Build.desktop Native.sample State.oneWindow (some 7)
        0xffffffff = Except.ok s' ∧
      (s'.windows 7).flags &&& not32 (WINRT_DetectableFlags Build.desktop) =
        (State.oneWindow.windows 7).flags &&& not32 (WINRT_DetectableFlags Build.desktop) ∧
      (s'.windows 7).flags = 0x3015 :=
  ⟨_, rfl,
    (WINRT_UpdateWindowFlags_frame Build.desktop Native.sample State.oneWindow (some 7)
      0xffffffff).1 _ rfl 7, rfl⟩

/-- C4 counterexample: the caller's version 2.1.0 exceeds the build's version 2.0.4
as a triple, yet `WINRT_GetWindowWMInfo` returns true. -/
theorem WINRT_GetWindowWMInfo_minor_not_compared :
    versionExceeds (2, 1, 0)
      (Build.desktop.SDL_MAJOR_VERSION, Build.desktop.SDL_MINOR_VERSION,
        Build.desktop.SDL_PATCHLEVEL) = true ∧
    (WINRT_GetWindowWMInfo Build.desktop State.oneWindow 7
      { version_major := 2, version_minor := 1, version_patch := 0, subsystem := 0,
        winrt_window := none }).map (fun r => r.1) = Except.ok true :=
  ⟨by decide, rfl⟩

/-- C4, amended: `WINRT_GetWindowWMInfo` returns false, with the error set and the
caller's struct untouched, exactly when the major version in the caller's struct
exceeds the major version of the build (minor and patch level are not compared);
otherwise, for a window that has driver data, it returns true with the subsystem
tag set to WinRT and the window field set to the native handle of the window. -/
theorem WINRT_GetWindowWMInfo_major (B : Build) (s : State) (window : Nat)
    (info : SDL_SysWMinfo) :
    (B.SDL_MAJOR_VERSION < info.version_major →
      WINRT_GetWindowWMInfo B s window info =
        Except.ok (false, info, SDL_SetError s (versionErrorText B))) ∧
    (info.version_major ≤ B.SDL_MAJOR_VERSION →
      ∀ d, (s.windows window).driverdata = some d →
        WINRT_GetWindowWMInfo B s window info =
          Except.ok (true,
            { info with subsystem := B.SDL_SYSWM_WINRT, winrt_window := d.coreWindow }, s)) ∧
    (∀ r, WINRT_GetWindowWMInfo B s window info = Except.ok r →
      (r.1 = false ↔ B.SDL_MAJOR_VERSION < info.version_major)) := by
  refine ⟨?_, ?_, ?_⟩
  · intro h
    unfold WINRT_GetWindowWMInfo
    rw [if_neg (by omega)]
  · intro h d hd
    unfold WINRT_GetWindowWMInfo
    rw [if_pos h]
    simp only [hd]
  · intro r hr
    unfold WINRT_GetWindowWMInfo at hr
    by_cases h : info.version_major ≤ B.SDL_MAJOR_VERSION
    · rw [if_pos h] at hr
      cases hd : (s.windows window).driverdata with
      | none => simp [hd] at hr
      | some d =>
        simp only [hd, Except.ok.injEq] at hr
        rw [← hr]
        simp
        omega
    · rw [if_neg h] at hr
      simp only [Except.ok.injEq] at hr
      rw [← hr]
      simp
      omega

/-- C4, amended, at concrete inputs: version 3.0.0 is refused, version 2.1.0 is
served with the native handle 1 of window 7. -/
theorem WINRT_GetWindowWMInfo_major_witness :
    WINRT_GetWindowWMInfo Build.desktop State.oneWindow 7
        { version_major := 3, version_minor := 0, version_patch := 0, subsystem := 0,
          winrt_window := none } =
      Except.ok (false,
        { version_major := 3, version_minor := 0, version_patch := 0, subsystem := 0,
          winrt_window := none },
        SDL_SetError State.oneWindow (versionErrorText Build.desktop)) ∧
    WINRT_GetWindowWMInfo Build.desktop State.oneWindow 7
        { version_major := 2, version_minor := 1, version_patch := 0, subsystem := 0,
          winrt_window := none } =
      Except.ok (true,
        { version_major := 2, version_minor := 1, version_patch := 0, subsystem := 8,
          winrt_window := some 1 },
        State.oneWindow) :=
  ⟨(WINRT_GetWindowWMInfo_major Build.desktop State.oneWindow 7 _).1 (by decide),
   (WINRT_GetWindowWMInfo_major Build.desktop State.oneWindow 7 _).2.1 (by decide) _ rfl⟩

/-- C10: for a non-null window, with `m = mask & WINRT_DetectableFlags` and `d` the
value of `WINRT_DetectWindowFlags(window)`, `WINRT_UpdateWindowFlags` stores
`(flags_before & ~m) | (d & m)` in the flags, stores `flags_before` in
`last_fullscreen_flags` exactly when `d & m` has the `SDL_WINDOW_FULLSCREEN` bit and
leaves it alone otherwise, and changes nothing else; `d` exists whenever the
window has driver data; for a null window the call changes nothing. -/
theorem WINRT_UpdateWindowFlags_merge (B : Build) (nat : Native) (s : State) (mask : Nat) :
    (∀ p, WINRT_UpdateWindowFlags B nat s (some p) mask =
      (WINRT_DetectWindowFlags B nat (s.windows p)).map (fun d =>
        s.setWindow p
          { s.windows p with
            flags := ((s.windows p).flags &&& not32 (mask &&& WINRT_DetectableFlags B)) |||
              (d &&& (mask &&& WINRT_DetectableFlags B))
            last_fullscreen_flags :=
              if (d &&& (mask &&& WINRT_DetectableFlags B)) &&& B.SDL_WINDOW_FULLSCREEN ≠ 0 then
                (s.windows p).flags
              else (s.windows p).last_fullscreen_flags })) ∧
    (∀ p, (s.windows p).driverdata ≠ none →
      ∃ d, WINRT_DetectWindowFlags B nat (s.windows p) = Except.ok d) ∧
    WINRT_UpdateWindowFlags B nat s none mask = Except.ok s := by
  refine ⟨?_, ?_, rfl⟩
  · intro p
    unfold WINRT_UpdateWindowFlags
    dsimp only
    rw [updateWindowFlags_eq]
    cases WINRT_DetectWindowFlags B nat (s.windows p) <;> rfl
  · intro p hp
    cases hd : (s.windows p).driverdata with
    | none => exact absurd hd hp
    | some data => exact WINRT_DetectWindowFlags_defined B nat _ data hd

/-- C10 at a concrete state: window 7 has flags 0x2015, the platform reports a
visible full screen window, the mask is 0x1005; the flags become 0x3015 and
`last_fullscreen_flags` becomes 0x2015. -/
theorem WINRT_UpdateWindowFlags_merge_witness :
    WINRT_DetectWindowFlags Build.desktop Native.sample (State.oneWindow.windows 7) =
      Except.ok 0x1005 ∧
    (WINRT_UpdateWindowFlags Build.desktop Native.sample State.oneWindow (some 7) 0x1005).map
      (fun s' => ((s'.windows 7).flags, (s'.windows 7).last_fullscreen_flags)) =
      Except.ok (0x3015, 0x2015) ∧
    (∃ d, WINRT_DetectWindowFlags Build.desktop Native.sample (State.oneWindow.windows 7) =
      Except.ok d) :=
  ⟨rfl,
   by rw [(WINRT_UpdateWindowFlags_merge Build.desktop Native.sample State.oneWindow 0x1005).1 7]
      rfl,
   (WINRT_UpdateWindowFlags_merge Build.desktop Native.sample State.oneWindow 0x1005).2.1 7
     (by decide)⟩

/-- The current-window pointer is not touched by `WINRT_UpdateWindowFlags`. -/
theorem WINRT_UpdateWindowFlags_pointer (B : Build) (nat : Native) (s s' : State)
    (window : Option Nat) (mask : Nat)
    (h : WINRT_UpdateWindowFlags B nat s window mask = Except.ok s') :
    s'.WINRT_GlobalSDLWindow = s.WINRT_GlobalSDLWindow := by
  unfold WINRT_UpdateWindowFlags at h
  cases window with
  | none =>
    simp only [Except.ok.injEq] at h
    rw [← h]
  | some p =>
    dsimp only at h
    cases hu : updateWindowFlags B nat (s.windows p) mask with
    | error e => rw [hu] at h; cases h
    | ok w =>
      rw [hu] at h
      simp only [Except.ok.injEq] at h
      rw [← h]
      rfl

/-- What a returning `WINRT_CreateWindow` does to the current-window pointer: it
returns `0` or `-1`; with `0` the pointer was null and is the new window now; with
`-1` the pointer is what it was. -/
theorem WINRT_CreateWindow_pointer (B : Build) (nat : Native) (s s' : State) (window : Nat)
    (r : Int) (h : WINRT_CreateWindow B nat s window = Except.ok (r, s')) :
    (r = 0 ∧ s.WINRT_GlobalSDLWindow = none ∧ s'.WINRT_GlobalSDLWindow = some window) ∨
    (r = -1 ∧ s'.WINRT_GlobalSDLWindow = s.WINRT_GlobalSDLWindow) := by
  unfold WINRT_CreateWindow at h
  cases hg : s.WINRT_GlobalSDLWindow with
  | some g =>
    rw [hg] at h
    simp only [Except.ok.injEq, Prod.mk.injEq] at h
    right
    refine ⟨h.1.symm, ?_⟩
    rw [← h.2]
    exact hg
  | none =>
    rw [hg] at h
    dsimp only at h
    split at h
    · simp only [Except.ok.injEq, Prod.mk.injEq] at h
      right
      refine ⟨h.1.symm, ?_⟩
      rw [← h.2]
      exact hg
    · split at h
      · simp only [Except.ok.injEq, Prod.mk.injEq] at h
        right
        refine ⟨h.1.symm, ?_⟩
        rw [← h.2]
        exact hg
      · split at h
        · simp only [Except.ok.injEq, Prod.mk.injEq] at h
          left
          refine ⟨h.1.symm, rfl, ?_⟩
          rw [← h.2]
        · split at h
          · cases h
          · split at h
            · cases h
            · simp only [Except.ok.injEq, Prod.mk.injEq] at h
              left
              refine ⟨h.1.symm, rfl, ?_⟩
              rw [← h.2]

/-- For a window with driver data `WINRT_UpdateWindowFlags` returns. -/
theorem WINRT_UpdateWindowFlags_defined (B : Build) (nat : Native) (s : State) (p mask : Nat)
    (data : SDL_WindowData) (h : (s.windows p).driverdata = some data) :
    ∃ s', WINRT_UpdateWindowFlags B nat s (some p) mask = Except.ok s' := by
  obtain ⟨d, hd⟩ := WINRT_DetectWindowFlags_defined B nat (s.windows p) data h
  unfold WINRT_UpdateWindowFlags
  dsimp only
  rw [updateWindowFlags_eq, hd]
  exact ⟨_, rfl⟩

/-- A call of `WINRT_UpdateWindowFlags` that stops was given a window without driver
data. -/
theorem WINRT_UpdateWindowFlags_error (B : Build) (nat : Native) (s : State) (p mask : Nat)
    (e : Stop) (h : WINRT_UpdateWindowFlags B nat s (some p) mask = Except.error e) :
    (s.windows p).driverdata = none := by
  cases hd : (s.windows p).driverdata with
  | none => rfl
  | some data =>
    obtain ⟨s', hs'⟩ := WINRT_UpdateWindowFlags_defined B nat s p mask data hd
    rw [hs'] at h
    cases h

/-- The function `WINRT_CreateWindow` returns whenever XAML support is enabled or the
thread has a native window. -/
theorem WINRT_CreateWindow_defined (B : Build) (nat : Native) (s : State) (window : Nat)
    (h : nat.WINRT_XAMLWasEnabled = true ∨ nat.GetForCurrentThread ≠ none) :
    ∃ r s', WINRT_CreateWindow B nat s window = Except.ok (r, s') := by
  unfold WINRT_CreateWindow
  cases s.WINRT_GlobalSDLWindow with
  | some g => exact ⟨_, _, rfl⟩
  | none =>
    dsimp only
    split
    · exact ⟨_, _, rfl⟩
    · split
      · exact ⟨_, _, rfl⟩
      · cases hx : nat.WINRT_XAMLWasEnabled with
        | true => exact ⟨_, _, rfl⟩
        | false =>
          have hc : nat.GetForCurrentThread ≠ none := by
            rcases h with h | h
            · rw [hx] at h; cases h
            · exact h
          cases hg : nat.GetForCurrentThread with
          | none => exact absurd hg hc
          | some c =>
            simp only [Bool.not_false, if_true, Bool.false_eq_true, if_false]
            split
            · rename_i e he
              have hnone := WINRT_UpdateWindowFlags_error B nat _ window _ e he
              simp [State.setWindow] at hnone
            · exact ⟨_, _, rfl⟩

/-- The current-window pointer after `WINRT_DestroyWindow`. -/
theorem WINRT_DestroyWindow_global (s : State) (w : Nat) :
    (WINRT_DestroyWindow s w).WINRT_GlobalSDLWindow =
      if s.WINRT_GlobalSDLWindow = some w then none else s.WINRT_GlobalSDLWindow := by
  unfold WINRT_DestroyWindow
  cases (s.windows w).driverdata <;> by_cases hg : s.WINRT_GlobalSDLWindow = some w <;>
    simp [hg, State.setWindow]

/-- Along a run of lifecycle calls the list of live windows stays equal to the
current-window pointer read as a list. -/
theorem runCalls_live (B : Build) (calls : List Call) :
    ∀ (s : State) (live : List Nat) (s' : State) (live' : List Nat),
      live = s.WINRT_GlobalSDLWindow.toList →
      runCalls B s live calls = Except.ok (s', live') →
      live' = s'.WINRT_GlobalSDLWindow.toList := by
  induction calls with
  | nil =>
    intro s live s' live' hl h
    simp only [runCalls, Except.ok.injEq, Prod.mk.injEq] at h
    rw [← h.1, ← h.2]
    exact hl
  | cons c rest ih =>
    intro s live s' live' hl h
    cases c with
    | create nat window =>
      simp only [runCalls] at h
      cases hc : WINRT_CreateWindow B nat s window with
      | error e => rw [hc] at h; cases h
      | ok rs =>
        obtain ⟨r, s1⟩ := rs
        rw [hc] at h
        dsimp only at h
        refine ih s1 _ s' live' ?_ h
        rcases WINRT_CreateWindow_pointer B nat s s1 window r hc with ⟨hr, hg, hg'⟩ | ⟨hr, hg'⟩
        · rw [hl, hg, hg', if_pos hr]
          rfl
        · rw [hg', if_neg (by omega)]
          exact hl
    | destroy window =>
      simp only [runCalls] at h
      refine ih _ _ s' live' ?_ h
      rw [WINRT_DestroyWindow_global, hl]
      cases hg : s.WINRT_GlobalSDLWindow with
      | none => simp
      | some g =>
        by_cases hgw : g = window
        · simp [hgw]
        · simp [hgw]

/-- C7: from a state with no current window, after any sequence of
`WINRT_CreateWindow` and `WINRT_DestroyWindow` calls that return, whatever the
platform answered inside them, either the pointer is null and no successfully
created window is still undestroyed, or the pointer is the one such window; a
create call that then returns `0` found no such window and leaves the pointer
equal to the new window. -/
theorem single_window_invariant (B : Build) (s0 : State) (calls : List Call) (s : State)
    (live : List Nat) (h0 : s0.WINRT_GlobalSDLWindow = none)
    (h : runCalls B s0 [] calls = Except.ok (s, live)) :
    ((s.WINRT_GlobalSDLWindow = none ∧ live = []) ∨
      (∃ w, s.WINRT_GlobalSDLWindow = some w ∧ live = [w])) ∧
    (∀ nat w s', WINRT_CreateWindow B nat s w = Except.ok (0, s') →
      live = [] ∧ s'.WINRT_GlobalSDLWindow = some w) := by
  have hl : live = s.WINRT_GlobalSDLWindow.toList :=
    runCalls_live B calls s0 [] s live (by rw [h0]; rfl) h
  refine ⟨?_, ?_⟩
  · cases hg : s.WINRT_GlobalSDLWindow with
    | none => left; rw [hl, hg]; exact ⟨rfl, rfl⟩
    | some w => right; refine ⟨w, rfl, ?_⟩; rw [hl, hg]; rfl
  · intro nat w s' hc
    rcases WINRT_CreateWindow_pointer B nat s s' w 0 hc with ⟨_, hg, hg'⟩ | ⟨hr, _⟩
    · refine ⟨?_, hg'⟩
      rw [hl, hg]
      rfl
    · omega

/-- C7 on a concrete run: window 7 is created, creating window 8 is refused, 8 and
then 7 are destroyed, window 9 is created; the pointer ends as 9, the only live
window, and a create call in that state cannot return `0`. -/
theorem single_window_invariant_witness :
    ∃ s live,
      runCalls Build.desktop State.start []
        [Call.create Native.sample 7, Call.create Native.sample 8, Call.destroy 8,
          Call.destroy 7, Call.create Native.sample 9] = Except.ok (s, live) ∧
      s.WINRT_GlobalSDLWindow = some 9 ∧ live = [9] ∧
      ((s.WINRT_GlobalSDLWindow = none ∧ live = []) ∨
        (∃ w, s.WINRT_GlobalSDLWindow = some w ∧ live = [w])) ∧
      (∀ nat w s', WINRT_CreateWindow Build.desktop nat s w = Except.ok (0, s') →
        live = [] ∧ s'.WINRT_GlobalSDLWindow = some w) := by
  refine ⟨_, _, rfl, rfl, rfl, ?_⟩
  exact single_window_invariant Build.desktop State.start
    [Call.create Native.sample 7, Call.create Native.sample 8, Call.destroy 8,
      Call.destroy 7, Call.create Native.sample 9] _ _ rfl rfl

/-! ## Properties of display enumeration -/

/-- A `LONG` difference that fits 32 bits is the mathematical difference. -/
theorem LONG_sub_eq (a b : Int) (h1 : -2 ^ 31 ≤ a - b) (h2 : a - b < 2 ^ 31) :
    LONG_sub a b = a - b := by
  unfold LONG_sub toInt32 toUInt32
  split <;> omega

/-- C5 counterexample: the description query succeeds and the closest-match query
reports `DXGI_ERROR_NOT_CURRENTLY_AVAILABLE`, but `SDL_AddVideoDisplay` fails, or
`SDL_AddDisplayMode` refuses the mode; in both cases `WINRT_AddDisplaysForOutput`
returns `-1` and no display is registered. -/
theorem fallback_without_registration :
    OutputCalls.remote.GetDesc = Except.ok DXGI_OUTPUT_DESC.sample ∧
    OutputCalls.remote.FindClosestMatchingMode (modeToMatch DXGI_OUTPUT_DESC.sample) =
      Except.error DXGI_ERROR_NOT_CURRENTLY_AVAILABLE ∧
    (WINRT_AddDisplaysForOutput sampleFormat
        { outputs := [Except.ok { OutputCalls.remote with addsDisplay := false }] } 0
        State.start).map (fun r => (r.1, r.2.displays)) = Except.ok (-1, []) ∧
    (WINRT_AddDisplaysForOutput sampleFormat
        { outputs := [Except.ok { OutputCalls.remote with accepts := fun _ _ => false }] } 0
        State.start).map (fun r => (r.1, r.2.displays)) = Except.ok (-1, []) :=
  ⟨rfl, rfl, rfl, rfl⟩

/-- C5, amended: for an output whose description query succeeds and whose
closest-match query reports `DXGI_ERROR_NOT_CURRENTLY_AVAILABLE`,
`WINRT_AddDisplaysForOutput` builds one mode, with refresh rate 0 and the extent of
the desktop rectangle (as 32 bit `LONG` differences) as width and height. When
`SDL_AddDisplayMode` takes that mode and `SDL_AddVideoDisplay` succeeds, the
function returns `0` and registers exactly one display, whose mode list is that
one mode, whose desktop and current mode are that mode and whose name is the
sentinel. When `SDL_AddDisplayMode` refuses the mode, the function returns `-1` and
leaves the state as it was; when `SDL_AddVideoDisplay` fails, it returns `-1` and
registers nothing. The answers of the mode-list query, of the allocator and of the
name conversion play no part: replacing them changes nothing. -/
theorem WINRT_AddDisplaysForOutput_fallback (fmt : Nat → Nat) (a : Adapter) (i : Nat)
    (s : State) (out : OutputCalls) (desc : DXGI_OUTPUT_DESC)
    (h1 : EnumOutputs a i = Except.ok out) (h2 : out.GetDesc = Except.ok desc)
    (h3 : out.FindClosestMatchingMode (modeToMatch desc) =
      Except.error DXGI_ERROR_NOT_CURRENTLY_AVAILABLE) :
    (∃ mode : SDL_DisplayMode,
      mode.refresh_rate = 0 ∧
      mode.w = LONG_sub desc.DesktopCoordinates.right desc.DesktopCoordinates.left ∧
      mode.h = LONG_sub desc.DesktopCoordinates.bottom desc.DesktopCoordinates.top ∧
      (-2 ^ 31 ≤ desc.DesktopCoordinates.right - desc.DesktopCoordinates.left →
        desc.DesktopCoordinates.right - desc.DesktopCoordinates.left < 2 ^ 31 →
        mode.w = desc.DesktopCoordinates.right - desc.DesktopCoordinates.left) ∧
      (-2 ^ 31 ≤ desc.DesktopCoordinates.bottom - desc.DesktopCoordinates.top →
        desc.DesktopCoordinates.bottom - desc.DesktopCoordinates.top < 2 ^ 31 →
        mode.h = desc.DesktopCoordinates.bottom - desc.DesktopCoordinates.top) ∧
      (out.accepts [] mode = true → out.addsDisplay = true →
        WINRT_AddDisplaysForOutput fmt a i s =
          Except.ok (0,
            { s with
              displays := s.displays ++
                [{ name := some "Windows Simulator / Terminal Services Display"
                   display_modes := [mode]
                   desktop_mode := mode
                   current_mode := mode }] })) ∧
      (out.accepts [] mode = false →
        WINRT_AddDisplaysForOutput fmt a i s = Except.ok (-1, s)) ∧
      (out.accepts [] mode = true → out.addsDisplay = false →
        ∃ s', WINRT_AddDisplaysForOutput fmt a i s = Except.ok (-1, s') ∧
          s'.displays = s.displays)) ∧
    (∀ (a' : Adapter) (size : Except Int Nat) (calloc : Nat → Bool)
        (contents : Nat → Except Int (List DXGI_MODE_DESC)) (utf8 : String → Option String),
      EnumOutputs a' i =
        Except.ok
          { out with
            GetDisplayModeList_size := size, SDL_calloc := calloc,
            GetDisplayModeList_contents := contents, WIN_StringToUTF8 := utf8 } →
      WINRT_AddDisplaysForOutput fmt a' i s = WINRT_AddDisplaysForOutput fmt a i s) := by
  refine ⟨⟨approximateMode desc, rfl, rfl, rfl, fun h h' => LONG_sub_eq _ _ h h',
    fun h h' => LONG_sub_eq _ _ h h', ?_, ?_, ?_⟩, ?_⟩
  · intro h4 h5
    unfold WINRT_AddDisplaysForOutput
    simp only [h1, h2, h3, if_true]
    simp [SDL_AddDisplayMode, SDL_VideoDisplay.zero, h4, registerDisplay, SDL_AddVideoDisplay, h5]
  · intro h4
    unfold WINRT_AddDisplaysForOutput
    simp only [h1, h2, h3, if_true]
    simp [SDL_AddDisplayMode, SDL_VideoDisplay.zero, h4]
  · intro h4 h5
    unfold WINRT_AddDisplaysForOutput
    simp only [h1, h2, h3, if_true]
    refine ⟨SDL_OutOfMemory s, ?_, rfl⟩
    simp [SDL_AddDisplayMode, SDL_VideoDisplay.zero, h4, registerDisplay, SDL_AddVideoDisplay, h5]
  · intro a' size calloc contents utf8 h1'
    unfold WINRT_AddDisplaysForOutput
    simp only [h1, h1', h2, h3, if_true]
    rfl

/-- C5, amended, at concrete outputs: a remote-session output with a desktop
rectangle of 1920 by 1080 pixels on a state without displays, once with a registry
that takes the mode, once with one that refuses it, once with a failing
`SDL_AddVideoDisplay`. -/
theorem WINRT_AddDisplaysForOutput_fallback_witness :
    (∃ mode : SDL_DisplayMode,
      mode.refresh_rate = 0 ∧ mode.w = 1920 ∧ mode.h = 1080 ∧
      WINRT_AddDisplaysForOutput sampleFormat { outputs := [Except.ok OutputCalls.remote] } 0
          State.start =
        Except.ok (0,
          { State.start with
            displays := State.start.displays ++
              [{ name := some "Windows Simulator / Terminal Services Display"
                 display_modes := [mode]
                 desktop_mode := mode
                 current_mode := mode }] })) ∧
    WINRT_AddDisplaysForOutput sampleFormat
        { outputs := [Except.ok { OutputCalls.remote with accepts := fun _ _ => false }] } 0
        State.start = Except.ok (-1, State.start) ∧
    (∃ s', WINRT_AddDisplaysForOutput sampleFormat
        { outputs := [Except.ok { OutputCalls.remote with addsDisplay := false }] } 0
        State.start = Except.ok (-1, s') ∧ s'.displays = State.start.displays) := by
  refine ⟨?_, ?_, ?_⟩
  · obtain ⟨⟨mode, hr, _, _, hw, hh, hacc, _, _⟩, _⟩ :=
      WINRT_AddDisplaysForOutput_fallback sampleFormat
        { outputs := [Except.ok OutputCalls.remote] } 0 State.start OutputCalls.remote
        DXGI_OUTPUT_DESC.sample rfl rfl rfl
    exact ⟨mode, hr, hw (by decide) (by decide), hh (by decide) (by decide), hacc rfl rfl⟩
  · obtain ⟨⟨mode, _, _, _, _, _, _, href, _⟩, _⟩ :=
      WINRT_AddDisplaysForOutput_fallback sampleFormat
        { outputs := [Except.ok { OutputCalls.remote with accepts := fun _ _ => false }] } 0
        State.start { OutputCalls.remote with accepts := fun _ _ => false }
        DXGI_OUTPUT_DESC.sample rfl rfl rfl
    exact href rfl
  · obtain ⟨⟨mode, _, _, _, _, _, _, _, hfail⟩, _⟩ :=
      WINRT_AddDisplaysForOutput_fallback sampleFormat
        { outputs := [Except.ok { OutputCalls.remote with addsDisplay := false }] } 0
        State.start { OutputCalls.remote with addsDisplay := false }
        DXGI_OUTPUT_DESC.sample rfl rfl rfl
    exact hfail rfl rfl

/-- A native mode with a non-zero denominator converts. -/
theorem WINRT_DXGIModeToSDLDisplayMode_ok (fmt : Nat → Nat) (m : DXGI_MODE_DESC)
    (h : m.RefreshRate.Denominator ≠ 0) :
    WINRT_DXGIModeToSDLDisplayMode fmt m =
      Except.ok
        { format := fmt m.Format, w := toInt32 m.Width, h := toInt32 m.Height,
          refresh_rate := toInt32 (m.RefreshRate.Numerator / m.RefreshRate.Denominator),
          driverdata := none } := by
  unfold WINRT_DXGIModeToSDLDisplayMode
  rw [if_neg h]
  rfl

/-- The mode loop over native modes with non-zero denominators returns; it changes
only the mode list, which grows by at most one entry per native mode and by
exactly one when the registry takes every mode. -/
theorem addModes_ok (fmt : Nat → Nat) (accepts : List SDL_DisplayMode → SDL_DisplayMode → Bool)
    (ms : List DXGI_MODE_DESC) :
    ∀ display : SDL_VideoDisplay, (∀ m ∈ ms, m.RefreshRate.Denominator ≠ 0) →
      ∃ display', addModes fmt accepts ms display = Except.ok display' ∧
        display'.name = display.name ∧ display'.desktop_mode = display.desktop_mode ∧
        display'.current_mode = display.current_mode ∧
        display'.display_modes.length ≤ display.display_modes.length + ms.length ∧
        ((∀ l m, accepts l m = true) →
          display'.display_modes.length = display.display_modes.length + ms.length) := by
  induction ms with
  | nil =>
    intro display _
    exact ⟨display, rfl, rfl, rfl, rfl, by simp, fun _ => by simp⟩
  | cons m rest ih =>
    intro display h
    have hm : m.RefreshRate.Denominator ≠ 0 := h m (List.mem_cons_self _ _)
    have hrest : ∀ m' ∈ rest, m'.RefreshRate.Denominator ≠ 0 :=
      fun m' hm' => h m' (List.mem_cons_of_mem _ hm')
    obtain ⟨d', hd', hn, hdm, hcm, hle, heq⟩ :=
      ih (SDL_AddDisplayMode accepts display
        { format := fmt m.Format, w := toInt32 m.Width, h := toInt32 m.Height,
          refresh_rate := toInt32 (m.RefreshRate.Numerator / m.RefreshRate.Denominator),
          driverdata := none }).2 hrest
    refine ⟨d', ?_, ?_, ?_, ?_, ?_, ?_⟩
    · simp only [addModes, WINRT_DXGIModeToSDLDisplayMode_ok fmt m hm]
      exact hd'
    · rw [hn]; unfold SDL_AddDisplayMode; split <;> rfl
    · rw [hdm]; unfold SDL_AddDisplayMode; split <;> rfl
    · rw [hcm]; unfold SDL_AddDisplayMode; split <;> rfl
    · refine le_trans hle ?_
      unfold SDL_AddDisplayMode
      split
      · simp
        omega
      · simp
    · intro hall
      rw [heq hall]
      unfold SDL_AddDisplayMode
      rw [if_pos (hall _ _)]
      simp
      omega

/-- The mode loop keeps the property that every mode of the display carries a
translated format. -/
theorem addModes_formats (fmt : Nat → Nat)
    (accepts : List SDL_DisplayMode → SDL_DisplayMode → Bool) (ms : List DXGI_MODE_DESC) :
    ∀ display display' : SDL_VideoDisplay, addModes fmt accepts ms display = Except.ok display' →
      (∀ x ∈ display.display_modes, ∃ n, x.format = fmt n) →
      ∀ x ∈ display'.display_modes, ∃ n, x.format = fmt n := by
  induction ms with
  | nil =>
    intro display display' h hall
    simp only [addModes, Except.ok.injEq] at h
    rw [← h]
    exact hall
  | cons m rest ih =>
    intro display display' h hall
    simp only [addModes] at h
    by_cases hm : m.RefreshRate.Denominator = 0
    · simp [WINRT_DXGIModeToSDLDisplayMode, hm] at h
    · rw [WINRT_DXGIModeToSDLDisplayMode_ok fmt m hm] at h
      refine ih _ display' h ?_
      intro x hx
      unfold SDL_AddDisplayMode at hx
      split at hx
      · simp only [List.mem_append, List.mem_singleton] at hx
        rcases hx with hx | hx
        · exact hall x hx
        · exact ⟨m.Format, by rw [hx]⟩
      · exact hall x hx

/-- C8 at the failing input: for a remote-session output the desktop mode, the
current mode and the one mode of the list carry 87, the native value
`DXGI_FORMAT_B8G8R8A8_UNORM` itself; the translator maps that value to 0x16362004
and maps no value to 87. -/
theorem fallback_format_not_translated :
    (WINRT_AddDisplaysForOutput sampleFormat { outputs := [Except.ok OutputCalls.remote] } 0
        State.start).map
      (fun r => r.2.displays.map (fun d =>
        (d.desktop_mode.format, d.current_mode.format, d.display_modes.map (fun m => m.format)))) =
      Except.ok [(87, 87, [87])] ∧
    DXGI_FORMAT_B8G8R8A8_UNORM = 87 ∧
    sampleFormat DXGI_FORMAT_B8G8R8A8_UNORM = 0x16362004 ∧
    ∀ n, sampleFormat n ≠ 87 := by
  refine ⟨rfl, rfl, rfl, ?_⟩
  intro n
  unfold sampleFormat
  split
  · decide
  · split <;> decide

/-- The output loop ends at an output whose processing returns a negative value. -/
theorem outputLoop_stop (fmt : Nat → Nat) (a : Adapter) (fuel i : Nat) (s s' : State) (r : Int)
    (h : WINRT_AddDisplaysForOutput fmt a i s = Except.ok (r, s')) (hr : r < 0) :
    outputLoop fmt a (fuel + 1) i s = Except.ok s' := by
  simp only [outputLoop, h, if_pos hr]

/-- The output loop goes on to the next index after an output whose processing
returns a non-negative value. -/
theorem outputLoop_continue (fmt : Nat → Nat) (a : Adapter) (fuel i : Nat) (s s' : State)
    (r : Int) (h : WINRT_AddDisplaysForOutput fmt a i s = Except.ok (r, s')) (hr : 0 ≤ r) :
    outputLoop fmt a (fuel + 1) i s = outputLoop fmt a fuel (i + 1) s' := by
  simp only [outputLoop, h, if_neg (not_lt.mpr hr)]

/-- The mode loop stops only on a division by zero. -/
theorem addModes_error (fmt : Nat → Nat)
    (accepts : List SDL_DisplayMode → SDL_DisplayMode → Bool) (ms : List DXGI_MODE_DESC) :
    ∀ (display : SDL_VideoDisplay) (e : Stop),
      addModes fmt accepts ms display = Except.error e → e = Stop.divideByZero := by
  induction ms with
  | nil =>
    intro display e h
    simp [addModes] at h
  | cons m rest ih =>
    intro display e h
    simp only [addModes] at h
    by_cases hm : m.RefreshRate.Denominator = 0
    · simp only [WINRT_DXGIModeToSDLDisplayMode, hm, if_true, Except.error.injEq] at h
      exact h.symm
    · rw [WINRT_DXGIModeToSDLDisplayMode_ok fmt m hm] at h
      exact ih _ e h

/-- The function `WINRT_AddDisplaysForOutput` stops only on a division by zero. -/
theorem WINRT_AddDisplaysForOutput_error (fmt : Nat → Nat) (a : Adapter) (i : Nat) (s : State)
    (e : Stop) (h : WINRT_AddDisplaysForOutput fmt a i s = Except.error e) :
    e = Stop.divideByZero := by
  unfold WINRT_AddDisplaysForOutput at h
  dsimp only at h
  split at h
  · cases h
  · split at h
    · cases h
    · split at h
      · split at h
        · split at h <;> cases h
        · cases h
      · rename_i closestMatch _
        by_cases hm : closestMatch.RefreshRate.Denominator = 0
        · simp only [WINRT_DXGIModeToSDLDisplayMode, hm, if_true, Except.error.injEq] at h
          exact h.symm
        · rw [WINRT_DXGIModeToSDLDisplayMode_ok fmt closestMatch hm] at h
          dsimp only at h
          split at h
          · cases h
          · split at h
            · cases h
            · split at h
              · cases h
              · split at h
                · rename_i e' he'
                  simp only [Except.error.injEq] at h
                  rw [← h]
                  exact addModes_error fmt _ _ _ e' he'
                · cases h

/-- Past the last entry of the adapter `WINRT_AddDisplaysForOutput` returns `-1` and
changes nothing. -/
theorem WINRT_AddDisplaysForOutput_past_end (fmt : Nat → Nat) (a : Adapter) (i : Nat)
    (s : State) (h : a.outputs.length ≤ i) :
    WINRT_AddDisplaysForOutput fmt a i s = Except.ok (-1, s) := by
  have he : EnumOutputs a i = Except.error DXGI_ERROR_NOT_FOUND := by
    unfold EnumOutputs
    rw [List.getD_eq_default _ _ h]
  unfold WINRT_AddDisplaysForOutput
  simp only [he]
  simp

/-- With one iteration more than the adapter has entries from `i` on, the output
loop entered at `i` returns or stops on a division by zero; it never runs out of
iterations. -/
theorem outputLoop_total (fmt : Nat → Nat) (a : Adapter) :
    ∀ (fuel i : Nat) (s : State), a.outputs.length ≤ i + fuel →
      (∃ s', outputLoop fmt a (fuel + 1) i s = Except.ok s') ∨
        outputLoop fmt a (fuel + 1) i s = Except.error Stop.divideByZero := by
  intro fuel
  induction fuel with
  | zero =>
    intro i s h
    left
    exact ⟨s, outputLoop_stop fmt a 0 i s s (-1)
      (WINRT_AddDisplaysForOutput_past_end fmt a i s (by omega)) (by omega)⟩
  | succ fuel ih =>
    intro i s h
    cases hc : WINRT_AddDisplaysForOutput fmt a i s with
    | error e =>
      right
      have he := WINRT_AddDisplaysForOutput_error fmt a i s e hc
      simp only [outputLoop, hc, he]
    | ok rs =>
      obtain ⟨r, s'⟩ := rs
      by_cases hr : r < 0
      · left
        exact ⟨s', outputLoop_stop fmt a (fuel + 1) i s s' r hc hr⟩
      · rw [outputLoop_continue fmt a (fuel + 1) i s s' r hc (not_lt.mp hr)]
        apply ih
        omega

/-- For an adapter the factory has, `WINRT_AddDisplaysForAdapter` runs the output
loop from index 0 and returns `0` when the loop returns. -/
theorem WINRT_AddDisplaysForAdapter_ok (fmt : Nat → Nat) (f : Factory) (k : Nat) (s : State)
    (a : Adapter) (h : EnumAdapters1 f k = Except.ok a) :
    WINRT_AddDisplaysForAdapter fmt f k s =
      (outputLoop fmt a (a.outputs.length + 1) 0 s).map (fun s' => ((0 : Int), s')) := by
  unfold WINRT_AddDisplaysForAdapter
  simp only [h]
  cases outputLoop fmt a (a.outputs.length + 1) 0 s <;> rfl

/-- When `EnumAdapters1` fails, `WINRT_AddDisplaysForAdapter` returns `-1` and registers
nothing. -/
theorem WINRT_AddDisplaysForAdapter_failed (fmt : Nat → Nat) (f : Factory) (k : Nat) (s : State)
    (hr : Int) (h : EnumAdapters1 f k = Except.error hr) :
    ∃ s', WINRT_AddDisplaysForAdapter fmt f k s = Except.ok (-1, s') ∧
      s'.displays = s.displays := by
  unfold WINRT_AddDisplaysForAdapter
  simp only [h]
  refine ⟨_, rfl, ?_⟩
  split <;> rfl

/-- The function `WINRT_AddDisplaysForAdapter` returns `0` or `-1` or stops on a division
by zero. -/
theorem WINRT_AddDisplaysForAdapter_total (fmt : Nat → Nat) (f : Factory) (k : Nat) (s : State) :
    (∃ r s', WINRT_AddDisplaysForAdapter fmt f k s = Except.ok (r, s') ∧ (r = 0 ∨ r = -1)) ∨
      WINRT_AddDisplaysForAdapter fmt f k s = Except.error Stop.divideByZero := by
  cases he : EnumAdapters1 f k with
  | error hr =>
    obtain ⟨s', h, _⟩ := WINRT_AddDisplaysForAdapter_failed fmt f k s hr he
    exact Or.inl ⟨-1, s', h, Or.inr rfl⟩
  | ok a =>
    rw [WINRT_AddDisplaysForAdapter_ok fmt f k s a he]
    rcases outputLoop_total fmt a a.outputs.length 0 s (by omega) with ⟨s', h⟩ | h
    · exact Or.inl ⟨0, s', by rw [h]; rfl, Or.inl rfl⟩
    · exact Or.inr (by rw [h]; rfl)

/-- With one iteration more than the factory has entries from `k` on, the adapter
loop entered at `k` returns or stops on a division by zero; it never runs out of
iterations. -/
theorem adapterLoop_total (fmt : Nat → Nat) (f : Factory) :
    ∀ (fuel k : Nat) (s : State), f.adapters.length ≤ k + fuel →
      (∃ s', adapterLoop fmt f (fuel + 1) k s = Except.ok s') ∨
        adapterLoop fmt f (fuel + 1) k s = Except.error Stop.divideByZero := by
  intro fuel
  induction fuel with
  | zero =>
    intro k s h
    have he : EnumAdapters1 f k = Except.error DXGI_ERROR_NOT_FOUND := by
      unfold EnumAdapters1
      rw [List.getD_eq_default _ _ (by omega)]
    obtain ⟨s', h', _⟩ := WINRT_AddDisplaysForAdapter_failed fmt f k s _ he
    left
    exact ⟨s', by simp [adapterLoop, h']⟩
  | succ fuel ih =>
    intro k s h
    rcases WINRT_AddDisplaysForAdapter_total fmt f k s with ⟨r, s', hc, hr⟩ | hc
    · rcases hr with hr | hr
      · subst hr
        have : adapterLoop fmt f (fuel + 1 + 1) k s = adapterLoop fmt f (fuel + 1) (k + 1) s' := by
          simp [adapterLoop, hc]
        rw [this]
        apply ih
        omega
      · subst hr
        left
        exact ⟨s', by simp [adapterLoop, hc]⟩
    · right
      simp only [adapterLoop, hc]

/-- Every bit `WINRT_DetectWindowFlags` returns is a bit of `WINRT_DetectableFlags`,
whatever the values of the flag constants. -/
theorem WINRT_DetectWindowFlags_detectable (B : Build) (nat : Native) (window : SDL_Window)
    (d : Nat) (h : WINRT_DetectWindowFlags B nat window = Except.ok d) :
    d &&& WINRT_DetectableFlags B = d := by
  unfold WINRT_DetectWindowFlags at h
  cases hdata : window.driverdata with
  | none => rw [hdata] at h; cases h
  | some data =>
    rw [hdata] at h
    dsimp only at h
    split at h
    · simp only [Except.ok.injEq] at h
      unfold WINRT_DetectableFlags
      apply Nat.eq_of_testBit_eq
      intro i
      repeat' split at h
      all_goals
        subst h
        simp only [Nat.testBit_and, Nat.testBit_or, Nat.zero_testBit]
        cases B.SDL_WINDOW_MAXIMIZED.testBit i <;>
          cases B.SDL_WINDOW_FULLSCREEN_DESKTOP.testBit i <;>
          cases B.SDL_WINDOW_SHOWN.testBit i <;> cases B.SDL_WINDOW_HIDDEN.testBit i <;>
          cases B.SDL_WINDOW_MOUSE_FOCUS.testBit i <;> rfl
    · simp only [Except.ok.injEq] at h
      rw [← h]
      simp

/-- The size `WINRT_DetectWindowFlags` compares with the desktop mode: width and
height of the bounds are exchanged in the portrait orientations off the phone and
in the landscape orientations on the phone above Windows Phone 8.0, and nowhere
else. -/
theorem orientedSize_eq (B : Build) (nat : Native) :
    orientedSize B nat =
      if (B.WINAPI_FAMILY_PHONE_APP = false ∧
            (nat.CurrentOrientation = DisplayOrientations.Portrait ∨
              nat.CurrentOrientation = DisplayOrientations.PortraitFlipped)) ∨
          (B.WINAPI_FAMILY_PHONE_APP = true ∧ NTDDI_WIN8 < B.NTDDI_VERSION ∧
            (nat.CurrentOrientation = DisplayOrientations.Landscape ∨
              nat.CurrentOrientation = DisplayOrientations.LandscapeFlipped)) then
        (nat.Bounds_Height, nat.Bounds_Width)
      else (nat.Bounds_Width, nat.Bounds_Height) := by
  unfold orientedSize
  cases hp : B.WINAPI_FAMILY_PHONE_APP <;> cases ho : nat.CurrentOrientation <;>
    by_cases hn : NTDDI_WIN8 < B.NTDDI_VERSION <;> simp [hn]

/-- With the flag values of `SDL_video.h`, for a window whose driver data has a
native window handle, `WINRT_DetectWindowFlags` returns a mask in which each bit is
set exactly as follows: SHOWN when the native window is visible, HIDDEN when it is
not; MOUSE_FOCUS when the pointer is inside the bounds, or always on Windows Phone
8.0; when the view is full screen, FULLSCREEN_DESKTOP when the size from
`orientedSize` is that of the desktop mode and MAXIMIZED when it is not; when the
view is not full screen, neither of the two. -/
theorem WINRT_DetectWindowFlags_handle (B : Build) (nat : Native) (window : SDL_Window)
    (hB : B.sdlWindowFlags) (data : SDL_WindowData) (hdata : window.driverdata = some data)
    (hcw : data.coreWindow ≠ none) :
    ∃ d, WINRT_DetectWindowFlags B nat window = Except.ok d ∧
      (d &&& B.SDL_WINDOW_SHOWN ≠ 0 ↔ nat.Visible = true) ∧
      (d &&& B.SDL_WINDOW_HIDDEN ≠ 0 ↔ nat.Visible = false) ∧
      ¬ (d &&& B.SDL_WINDOW_MAXIMIZED ≠ 0 ∧
        d &&& (B.SDL_WINDOW_FULLSCREEN_DESKTOP &&& not32 B.SDL_WINDOW_FULLSCREEN) ≠ 0) ∧
      (((B.SDL_WINRT_USE_APPLICATIONVIEW = true ∧ data.appView ≠ none ∧
            nat.IsFullScreen = true) ∨
          (B.SDL_WINRT_USE_APPLICATIONVIEW = false ∧ B.WINAPI_FAMILY_PHONE_APP = true)) →
        (d &&& B.SDL_WINDOW_FULLSCREEN_DESKTOP = B.SDL_WINDOW_FULLSCREEN_DESKTOP ↔
          (nat.SDL_GetDisplayForWindow.desktop_mode.w = (orientedSize B nat).1 ∧
            nat.SDL_GetDisplayForWindow.desktop_mode.h = (orientedSize B nat).2)) ∧
        (d &&& B.SDL_WINDOW_MAXIMIZED ≠ 0 ↔
          ¬ (nat.SDL_GetDisplayForWindow.desktop_mode.w = (orientedSize B nat).1 ∧
            nat.SDL_GetDisplayForWindow.desktop_mode.h = (orientedSize B nat).2))) ∧
      (¬ ((B.SDL_WINRT_USE_APPLICATIONVIEW = true ∧ data.appView ≠ none ∧
            nat.IsFullScreen = true) ∨
          (B.SDL_WINRT_USE_APPLICATIONVIEW = false ∧ B.WINAPI_FAMILY_PHONE_APP = true)) →
        d &&& B.SDL_WINDOW_MAXIMIZED = 0 ∧
        d &&& (B.SDL_WINDOW_FULLSCREEN_DESKTOP &&& not32 B.SDL_WINDOW_FULLSCREEN) = 0) ∧
      (d &&& B.SDL_WINDOW_MOUSE_FOCUS ≠ 0 ↔
        ((B.WINAPI_FAMILY_PHONE_APP = true ∧ B.NTDDI_VERSION < NTDDI_WINBLUE) ∨
          nat.PointerInBounds = true)) := by
  obtain ⟨h1, h2, h3, h4, h5, h6⟩ := hB
  obtain ⟨c, hc⟩ := Option.ne_none_iff_exists'.mp hcw
  unfold WINRT_DetectWindowFlags
  rw [hdata]
  simp only [hc, Option.isSome_some, if_true, h1, h2, h3, h4, h5, h6]
  refine ⟨_, rfl, ?_⟩
  have hfs : ((B.SDL_WINRT_USE_APPLICATIONVIEW = true ∧ data.appView ≠ none ∧
        nat.IsFullScreen = true) ∨
      (B.SDL_WINRT_USE_APPLICATIONVIEW = false ∧ B.WINAPI_FAMILY_PHONE_APP = true)) ↔
      (if B.SDL_WINRT_USE_APPLICATIONVIEW = true then
        if data.appView.isSome = true then nat.IsFullScreen else false
      else if B.WINAPI_FAMILY_PHONE_APP = true then true else false) = true := by
    cases B.SDL_WINRT_USE_APPLICATIONVIEW <;> cases B.WINAPI_FAMILY_PHONE_APP <;>
      cases data.appView <;> cases nat.IsFullScreen <;> simp
  have hmf : (B.WINAPI_FAMILY_PHONE_APP = true ∧ B.NTDDI_VERSION < NTDDI_WINBLUE) ↔
      (B.WINAPI_FAMILY_PHONE_APP && decide (B.NTDDI_VERSION < NTDDI_WINBLUE)) = true := by
    simp
  have hcond : (nat.SDL_GetDisplayForWindow.desktop_mode.w ≠ (orientedSize B nat).1 ∨
      nat.SDL_GetDisplayForWindow.desktop_mode.h ≠ (orientedSize B nat).2) ↔
      ¬ (nat.SDL_GetDisplayForWindow.desktop_mode.w = (orientedSize B nat).1 ∧
        nat.SDL_GetDisplayForWindow.desktop_mode.h = (orientedSize B nat).2) :=
    not_and_or.symm
  rw [hfs, hmf]
  simp only [hcond]
  by_cases hF : (if B.SDL_WINRT_USE_APPLICATIONVIEW = true then
        if data.appView.isSome = true then nat.IsFullScreen else false
      else if B.WINAPI_FAMILY_PHONE_APP = true then true else false) = true <;>
  by_cases hE : (nat.SDL_GetDisplayForWindow.desktop_mode.w = (orientedSize B nat).1 ∧
      nat.SDL_GetDisplayForWindow.desktop_mode.h = (orientedSize B nat).2) <;>
  by_cases hP : (B.WINAPI_FAMILY_PHONE_APP && decide (B.NTDDI_VERSION < NTDDI_WINBLUE)) = true <;>
  cases hV : nat.Visible <;> cases hQ : nat.PointerInBounds <;>
  simp only [hF, hE, hP, not_true_eq_false, not_false_eq_true, if_true, if_false,
    Bool.false_eq_true, not32] <;>
  decide

/-- C11 counterexample: a window without driver data has no native window handle,
yet `WINRT_DetectWindowFlags` does not return 0 for it: it dereferences the null
driver data and returns nothing. -/
theorem WINRT_DetectWindowFlags_driverless :
    SDL_Window.blank.driverdata = none ∧
    WINRT_DetectWindowFlags Build.desktop Native.sample SDL_Window.blank =
      Except.error Stop.nullDereference ∧
    WINRT_DetectWindowFlags Build.desktop Native.sample SDL_Window.blank ≠ Except.ok 0 := by
  refine ⟨rfl, rfl, ?_⟩
  intro h
  have h' : (Except.error Stop.nullDereference : Run Nat) = Except.ok 0 := h
  cases h'

/-- C11, amended: with the flag values of `SDL_video.h`, for every native state and
every window that has driver data, `WINRT_DetectWindowFlags` returns a mask that has
only bits of `WINRT_DetectableFlags`; the mask is 0 when the driver data has no
native window handle; with a native handle, SHOWN is set exactly when the native
window is visible and HIDDEN exactly when it is not, MAXIMIZED and the bit that
only FULLSCREEN_DESKTOP has are never both set, MOUSE_FOCUS is set exactly when the
pointer is inside the bounds or the build is for Windows Phone 8.0, and, when the
view is full screen (the view of the window reports it in a build with view
support, or the build is for the phone without view support), the mask has
FULLSCREEN_DESKTOP exactly when the orientation-corrected window size equals
width and height of the desktop mode, and MAXIMIZED exactly when it does not;
the corrected size is the bounds with width and height exchanged in the portrait
orientations off the phone and in the landscape orientations on the phone above
Windows Phone 8.0, and the bounds as they are otherwise; when the view is not full
screen neither MAXIMIZED nor the bit that only FULLSCREEN_DESKTOP has is set. For
a window without driver data the function does not return (null dereference). -/
theorem WINRT_DetectWindowFlags_invariants (B : Build) (nat : Native) (window : SDL_Window)
    (hB : B.sdlWindowFlags) :
    (window.driverdata = none →
      WINRT_DetectWindowFlags B nat window = Except.error Stop.nullDereference) ∧
    (∀ data, window.driverdata = some data →
      ∃ d, WINRT_DetectWindowFlags B nat window = Except.ok d ∧
        d &&& WINRT_DetectableFlags B = d ∧
        (data.coreWindow = none → d = 0) ∧
        (data.coreWindow ≠ none →
          (d &&& B.SDL_WINDOW_SHOWN ≠ 0 ↔ nat.Visible = true) ∧
          (d &&& B.SDL_WINDOW_HIDDEN ≠ 0 ↔ nat.Visible = false) ∧
          ¬ (d &&& B.SDL_WINDOW_MAXIMIZED ≠ 0 ∧
            d &&& (B.SDL_WINDOW_FULLSCREEN_DESKTOP &&& not32 B.SDL_WINDOW_FULLSCREEN) ≠ 0) ∧
          (d &&& B.SDL_WINDOW_MOUSE_FOCUS ≠ 0 ↔
            ((B.WINAPI_FAMILY_PHONE_APP = true ∧ B.NTDDI_VERSION < NTDDI_WINBLUE) ∨
              nat.PointerInBounds = true)) ∧
          (((B.SDL_WINRT_USE_APPLICATIONVIEW = true ∧ data.appView ≠ none ∧
                nat.IsFullScreen = true) ∨
              (B.SDL_WINRT_USE_APPLICATIONVIEW = false ∧ B.WINAPI_FAMILY_PHONE_APP = true)) →
            (((B.WINAPI_FAMILY_PHONE_APP = false ∧
                  (nat.CurrentOrientation = DisplayOrientations.Portrait ∨
                    nat.CurrentOrientation = DisplayOrientations.PortraitFlipped)) ∨
                (B.WINAPI_FAMILY_PHONE_APP = true ∧ NTDDI_WIN8 < B.NTDDI_VERSION ∧
                  (nat.CurrentOrientation = DisplayOrientations.Landscape ∨
                    nat.CurrentOrientation = DisplayOrientations.LandscapeFlipped))) →
              (d &&& B.SDL_WINDOW_FULLSCREEN_DESKTOP = B.SDL_WINDOW_FULLSCREEN_DESKTOP ↔
                (nat.SDL_GetDisplayForWindow.desktop_mode.w = nat.Bounds_Height ∧
                  nat.SDL_GetDisplayForWindow.desktop_mode.h = nat.Bounds_Width)) ∧
              (d &&& B.SDL_WINDOW_MAXIMIZED ≠ 0 ↔
                ¬ (nat.SDL_GetDisplayForWindow.desktop_mode.w = nat.Bounds_Height ∧
                  nat.SDL_GetDisplayForWindow.desktop_mode.h = nat.Bounds_Width))) ∧
            (¬ ((B.WINAPI_FAMILY_PHONE_APP = false ∧
                  (nat.CurrentOrientation = DisplayOrientations.Portrait ∨
                    nat.CurrentOrientation = DisplayOrientations.PortraitFlipped)) ∨
                (B.WINAPI_FAMILY_PHONE_APP = true ∧ NTDDI_WIN8 < B.NTDDI_VERSION ∧
                  (nat.CurrentOrientation = DisplayOrientations.Landscape ∨
                    nat.CurrentOrientation = DisplayOrientations.LandscapeFlipped))) →
              (d &&& B.SDL_WINDOW_FULLSCREEN_DESKTOP = B.SDL_WINDOW_FULLSCREEN_DESKTOP ↔
                (nat.SDL_GetDisplayForWindow.desktop_mode.w = nat.Bounds_Width ∧
                  nat.SDL_GetDisplayForWindow.desktop_mode.h = nat.Bounds_Height)) ∧
              (d &&& B.SDL_WINDOW_MAXIMIZED ≠ 0 ↔
                ¬ (nat.SDL_GetDisplayForWindow.desktop_mode.w = nat.Bounds_Width ∧
                  nat.SDL_GetDisplayForWindow.desktop_mode.h = nat.Bounds_Height)))) ∧
          (¬ ((B.SDL_WINRT_USE_APPLICATIONVIEW = true ∧ data.appView ≠ none ∧
                nat.IsFullScreen = true) ∨
              (B.SDL_WINRT_USE_APPLICATIONVIEW = false ∧ B.WINAPI_FAMILY_PHONE_APP = true)) →
            d &&& B.SDL_WINDOW_MAXIMIZED = 0 ∧
            d &&& (B.SDL_WINDOW_FULLSCREEN_DESKTOP &&& not32 B.SDL_WINDOW_FULLSCREEN) = 0))) := by
  refine ⟨?_, ?_⟩
  · intro hnone
    unfold WINRT_DetectWindowFlags
    rw [hnone]
  · intro data hdata
    cases hcw : data.coreWindow with
    | none =>
      refine ⟨0, ?_, by simp, fun _ => rfl, fun h => absurd rfl h⟩
      unfold WINRT_DetectWindowFlags
      rw [hdata]
      simp only [hcw, Option.isSome_none, Bool.false_eq_true, if_false]
    | some c =>
      have hne : data.coreWindow ≠ none := by rw [hcw]; exact Option.some_ne_none c
      obtain ⟨d, hd, hshown, hhidden, hboth, hfull, hnot, hmouse⟩ :=
        WINRT_DetectWindowFlags_handle B nat window hB data hdata hne
      refine ⟨d, hd, WINRT_DetectWindowFlags_detectable B nat window d hd,
        fun h => absurd h (Option.some_ne_none c), fun _ =>
          ⟨hshown, hhidden, hboth, hmouse, ?_, hnot⟩⟩
      intro hp
      have hf := hfull hp
      rw [orientedSize_eq] at hf
      refine ⟨fun hx => ?_, fun hx => ?_⟩
      · rw [if_pos hx] at hf
        exact hf
      · rw [if_neg hx] at hf
        exact hf

/-- C11, amended, at concrete windows: window 7 has driver data with a native
window and a view; for a visible full screen window of 1080 by 1920 pixels in
portrait orientation on a desktop of 1920 by 1080 the result is 0x1405 (SHOWN,
MOUSE_FOCUS and FULLSCREEN_DESKTOP, after the exchange of width and height); for
one of 1920 by 1080 pixels in landscape orientation FULLSCREEN_DESKTOP is set
without an exchange; for a window without driver data the function stops. -/
theorem WINRT_DetectWindowFlags_invariants_witness :
    Build.desktop.sdlWindowFlags ∧
    WINRT_DetectWindowFlags Build.desktop Native.portrait (State.oneWindow.windows 7) =
      Except.ok 0x1405 ∧
    (∃ d, WINRT_DetectWindowFlags Build.desktop Native.portrait (State.oneWindow.windows 7) =
        Except.ok d ∧
      d &&& WINRT_DetectableFlags Build.desktop = d ∧
      d &&& Build.desktop.SDL_WINDOW_SHOWN ≠ 0 ∧
      d &&& Build.desktop.SDL_WINDOW_FULLSCREEN_DESKTOP =
        Build.desktop.SDL_WINDOW_FULLSCREEN_DESKTOP) ∧
    (∃ d, WINRT_DetectWindowFlags Build.desktop Native.sample (State.oneWindow.windows 7) =
        Except.ok d ∧
      d &&& Build.desktop.SDL_WINDOW_FULLSCREEN_DESKTOP =
        Build.desktop.SDL_WINDOW_FULLSCREEN_DESKTOP) ∧
    WINRT_DetectWindowFlags Build.desktop Native.portrait SDL_Window.blank =
      Except.error Stop.nullDereference := by
  have hB : Build.desktop.sdlWindowFlags := ⟨rfl, rfl, rfl, rfl, rfl, rfl⟩
  refine ⟨hB, rfl, ?_, ?_, ?_⟩
  · obtain ⟨d, hd, hdet, _, hhandle⟩ :=
      (WINRT_DetectWindowFlags_invariants Build.desktop Native.portrait
        (State.oneWindow.windows 7) hB).2
        { sdlWindow := 7, coreWindow := some 1, appView := some 2, egl_surface := none } rfl
    obtain ⟨hshown, _, _, _, hfull, _⟩ := hhandle (by decide)
    exact ⟨d, hd, hdet, hshown.mpr rfl,
      ((hfull (Or.inl ⟨rfl, by decide, rfl⟩)).1 (Or.inl ⟨rfl, Or.inl rfl⟩)).1.mpr ⟨rfl, rfl⟩⟩
  · obtain ⟨d, hd, _, _, hhandle⟩ :=
      (WINRT_DetectWindowFlags_invariants Build.desktop Native.sample
        (State.oneWindow.windows 7) hB).2
        { sdlWindow := 7, coreWindow := some 1, appView := some 2, egl_surface := none } rfl
    obtain ⟨_, _, _, _, hfull, _⟩ := hhandle (by decide)
    exact ⟨d, hd,
      ((hfull (Or.inl ⟨rfl, by decide, rfl⟩)).2 (by decide)).1.mpr ⟨rfl, rfl⟩⟩
  · exact (WINRT_DetectWindowFlags_invariants Build.desktop Native.portrait SDL_Window.blank
      hB).1 rfl

/-! ## Properties of the mode conversion -/

/-- A `UINT` value below 2^31 is kept by the conversion to `int`. -/
theorem toInt32_of_lt (x : Nat) (h : x < 2 ^ 31) : toInt32 x = (x : Int) := by
  unfold toInt32
  split <;> omega

/-- For a native mode with a non-zero denominator the conversion returns: the
format is translated, the driver data is cleared, width, height and refresh rate
are the `UINT` values `Width`, `Height` and `Numerator / Denominator` converted to
`int`, which keeps every value below 2^31. -/
theorem WINRT_DXGIModeToSDLDisplayMode_values (fmt : Nat → Nat) (m : DXGI_MODE_DESC)
    (h : m.RefreshRate.Denominator ≠ 0) :
    ∃ sdlMode, WINRT_DXGIModeToSDLDisplayMode fmt m = Except.ok sdlMode ∧
      sdlMode.format = fmt m.Format ∧ sdlMode.driverdata = none ∧
      sdlMode.w = toInt32 m.Width ∧ sdlMode.h = toInt32 m.Height ∧
      sdlMode.refresh_rate = toInt32 (m.RefreshRate.Numerator / m.RefreshRate.Denominator) ∧
      (m.Width < 2 ^ 31 → sdlMode.w = (m.Width : Int)) ∧
      (m.Height < 2 ^ 31 → sdlMode.h = (m.Height : Int)) ∧
      (m.RefreshRate.Numerator / m.RefreshRate.Denominator < 2 ^ 31 →
        sdlMode.refresh_rate =
          ((m.RefreshRate.Numerator / m.RefreshRate.Denominator : Nat) : Int)) :=
  ⟨_, WINRT_DXGIModeToSDLDisplayMode_ok fmt m h, rfl, rfl, rfl, rfl, rfl,
    fun hw => toInt32_of_lt _ hw, fun hh => toInt32_of_lt _ hh, fun hr => toInt32_of_lt _ hr⟩

/-- C12 at the failing input: for a native mode with refresh rate 60/0, and for
one with 0/0, `WINRT_DXGIModeToSDLDisplayMode` divides by zero and produces no mode;
an output whose mode list holds such a mode stops `WINRT_AddDisplaysForOutput`; the
same mode with refresh rate 60000/1000 converts to 1920 by 1080 at 60 Hz. -/
theorem zero_denominator_stops :
    WINRT_DXGIModeToSDLDisplayMode sampleFormat
        { DXGI_MODE_DESC.hd60 with RefreshRate := { Numerator := 60, Denominator := 0 } } =
      Except.error Stop.divideByZero ∧
    WINRT_DXGIModeToSDLDisplayMode sampleFormat
        { DXGI_MODE_DESC.hd60 with RefreshRate := { Numerator := 0, Denominator := 0 } } =
      Except.error Stop.divideByZero ∧
    (WINRT_AddDisplaysForOutput sampleFormat
        { outputs := [Except.ok
            { OutputCalls.monitor with
              GetDisplayModeList_contents := fun _ =>
                Except.ok [{ DXGI_MODE_DESC.hd60 with
                  RefreshRate := { Numerator := 60, Denominator := 0 } }] }] } 0
        State.start).map (fun r => r.1) = Except.error Stop.divideByZero ∧
    WINRT_DXGIModeToSDLDisplayMode sampleFormat DXGI_MODE_DESC.hd60 =
      Except.ok { format := 0x16362004, w := 1920, h := 1080, refresh_rate := 60,
                  driverdata := none } :=
  ⟨rfl, rfl, rfl, rfl⟩

end WinRT
